import Mathlib

/-!
Verification development for the `dotfiles` repository (`dotfiles/logics.py`).

The program installs user configuration files into a destination directory
through two file-placement primitives (`SymLink.run`, `CopyFile.run`) and a
collection of per-tool installers (`TMux`, `Vimperator`, `Gdb`, `Fvwm2`,
`Git`, `Zsh`, `Vim`, `CommandLineHelper`).

The filesystem is embedded shallowly:

* a `FPath` is an absolute/relative flag together with a list of components,
  with `pathlib`'s join semantics (joining with an absolute right-hand side
  yields that side unchanged);
* a filesystem `FS` is an association list mapping a path to an optional
  entry; updates (including removals) are modelled by prepending a new
  binding, so a filesystem only ever grows in length — this keeps the fuel
  used by symlink resolution monotone across updates;
* an entry is a regular file with its text content, a symbolic link with its
  target path, or a directory;
* `pathlib` semantics are mirrored: `exists` and `is_file` follow chains of
  symbolic links (a dangling or cyclic chain yields `false`), `is_symlink`
  does not, `symlink_to` fails with `FileExistsError` whenever any entry
  (even a dangling symlink) is present at the link path, and writing through
  `open`/`shutil.copy` follows symlinks to the final path;
* fallible operations return `Except Err`; Python `assert` failures and
  uncaught OS errors are error outcomes (the process terminates without
  producing an `ExitCode`);
* network effects (git clone, HTTP GET) are recorded as `Event`s in a trace
  returned next to the result; the HTTP response is an explicit input.

Directory-tree constraints on plain writes (a write below a missing parent
directory) are not modelled: paths are flat keys.  `mkdir(parents=True)` is
modelled as creating directory entries at the path and each of its prefixes,
failing like Python does when an entry already occupies the leaf path.
-/

/-- A POSIX path: absolute flag plus components, as in `pathlib.PurePosixPath`. -/
structure FPath where
  absolute : Bool
  components : List String
deriving DecidableEq

/-- Join of paths, following `pathlib`: if the right-hand side is absolute it
replaces the left-hand side entirely, otherwise components are appended. -/
def FPath.join (p q : FPath) : FPath :=
  if q.absolute then q else ⟨p.absolute, p.components ++ q.components⟩

/-- A relative path made of a single component (a filename). -/
def FPath.rel (s : String) : FPath := ⟨false, [s]⟩

/-- Rendering of a path as a string, as `str()` on a `PosixPath`. -/
def FPath.toStr (p : FPath) : String :=
  (if p.absolute then "/" else "") ++ String.intercalate "/" p.components

/-- Last component of a path (`os.path.basename`); empty for an empty path. -/
def FPath.basename (p : FPath) : String := (p.components.getLast?).getD ""

/-- The proper non-empty prefixes of a path, shortest first; these are the
directories `mkdir(parents=True)` creates (together with the path itself). -/
def FPath.prefixPaths (p : FPath) : List FPath :=
  (List.range p.components.length).map
    (fun n => FPath.mk p.absolute (p.components.take (n + 1)))

/-- A filesystem entry: regular file with content, symbolic link with target,
or directory. -/
inductive Entry where
  | file (content : String)
  | symlink (target : FPath)
  | dir
deriving DecidableEq

/-- Outcome enumeration of `logics.ExitCode`. -/
inductive ExitCode where
  | SUCCESS
  | SKIP
deriving DecidableEq

/-- Uncaught Python exceptions terminating the process: failed `assert`s and
OS-level errors of the filesystem calls. -/
inductive Err where
  | assertionError
  | fileExistsError
  | fileNotFoundError
  | isADirectoryError
  | osError
deriving DecidableEq

/-- Observable network side effects of an installer run. -/
inductive Event where
  | gitClone (url : String) (dst : FPath)
  | httpGet (url : String)
deriving DecidableEq

deriving instance DecidableEq for Except

/-- A filesystem: an association list from paths to optional entries.  The
binding closest to the head wins; `none` records a removal.  All updates
prepend, so the list length never decreases. -/
abbrev FS := List (FPath × Option Entry)

/-- Entry currently stored at a path (no symlink resolution; `lstat` level). -/
def FS.lookup : FS → FPath → Option Entry
  | [], _ => none
  | (q, oe) :: rest, p => if q = p then oe else FS.lookup rest p

/-- Store an entry at a path. -/
def FS.set (fs : FS) (p : FPath) (e : Entry) : FS := (p, some e) :: fs

/-- Remove the entry at a path (`FPath.unlink`; in the program it is only
invoked on paths whose entry is known to exist). -/
def FS.unlink (fs : FS) (p : FPath) : FS := (p, none) :: fs

/-- Follow symbolic links from a path for at most `fuel` steps, returning the
entry the chain ends at; `none` for a dangling or too-long (cyclic) chain. -/
def FS.resolve (fs : FS) : Nat → FPath → Option Entry
  | 0, _ => none
  | fuel + 1, p =>
    match FS.lookup fs p with
    | some (Entry.symlink t) => FS.resolve fs fuel t
    | e => e

/-- Follow symbolic links from a path to the final path a write at `p` would
touch; `none` when the chain cycles. -/
def FS.resolvePath (fs : FS) : Nat → FPath → Option FPath
  | 0, _ => none
  | fuel + 1, p =>
    match FS.lookup fs p with
    | some (Entry.symlink t) => FS.resolvePath fs fuel t
    | _ => some p

/-- The resolution fuel that suffices for any terminating chain in `fs`: one
more than the number of bindings. -/
def FS.fuel (fs : FS) : Nat := fs.length + 1

/-- Python `FPath.exists()`: the path resolves (through symlinks) to an
existing entry; `false` on a dangling or cyclic symlink chain. -/
def FS.pexists (fs : FS) (p : FPath) : Bool := (FS.resolve fs (FS.fuel fs) p).isSome

/-- Python `FPath.is_symlink()`: the entry at the path itself is a symlink. -/
def FS.is_symlink (fs : FS) (p : FPath) : Bool :=
  match FS.lookup fs p with
  | some (Entry.symlink _) => true
  | _ => false

/-- Python `FPath.is_file()`: the path resolves to a regular file. -/
def FS.is_file (fs : FS) (p : FPath) : Bool :=
  match FS.resolve fs (FS.fuel fs) p with
  | some (Entry.file _) => true
  | _ => false

/-- Python `FPath.is_dir()` (used by `shutil.copy`): resolves to a directory. -/
def FS.is_dir (fs : FS) (p : FPath) : Bool :=
  match FS.resolve fs (FS.fuel fs) p with
  | some Entry.dir => true
  | _ => false

/-- Size reported by `stat().st_size` (follows symlinks), as the length of
the file content; `none` when the path does not resolve to a regular file. -/
def FS.size (fs : FS) (p : FPath) : Option Nat :=
  match FS.resolve fs (FS.fuel fs) p with
  | some (Entry.file c) => some c.length
  | _ => none

/-- Write text at a path as `open(p, "w")` does: follow symlinks to the final
path; fail on a symlink cycle (`OSError`) or when the final entry is a
directory (`IsADirectoryError`). -/
def FS.writeFile (fs : FS) (p : FPath) (content : String) : Except Err FS :=
  match FS.resolvePath fs (FS.fuel fs) p with
  | none => Except.error Err.osError
  | some p' =>
    match FS.lookup fs p' with
    | some Entry.dir => Except.error Err.isADirectoryError
    | _ => Except.ok (FS.set fs p' (Entry.file content))

/-- Python `shutil.copy(src, dst)`: read the source through symlinks (a
directory source raises), and if the destination resolves to a directory,
copy into it under the source's basename; otherwise write at the
destination. -/
def FS.copy (fs : FS) (src dst : FPath) : Except Err FS :=
  match FS.resolve fs (FS.fuel fs) src with
  | some (Entry.file c) =>
    let dstEff := if FS.is_dir fs dst then dst.join (FPath.rel src.basename) else dst
    FS.writeFile fs dstEff c
  | some Entry.dir => Except.error Err.isADirectoryError
  | _ => Except.error Err.fileNotFoundError

/-- Python `dst.symlink_to(src)`: create a symlink at `dst` pointing to
`src`; `FileExistsError` when any entry (even a dangling symlink) is already
present at `dst`. -/
def FS.symlink_to (fs : FS) (dst src : FPath) : Except Err FS :=
  match FS.lookup fs dst with
  | some _ => Except.error Err.fileExistsError
  | none => Except.ok (FS.set fs dst (Entry.symlink src))

/-- Python `p.mkdir(parents=True)`: create directory entries at the path and
its prefixes; `FileExistsError` when an entry already occupies the path
itself (conflicts on strict prefixes are not modelled). -/
def FS.mkdir_p (fs : FS) (p : FPath) : Except Err FS :=
  match FS.lookup fs p with
  | some _ => Except.error Err.fileExistsError
  | none => Except.ok (p.prefixPaths.foldl (fun f q => FS.set f q Entry.dir) fs)

/-- Effect of `git.Repo.clone_from(url, dst)` on the filesystem: the cloned
working tree appears as a directory at `dst` (its contents are not
modelled; a network failure would raise and is not modelled either, the
clone is assumed to succeed). -/
def FS.cloneRepo (fs : FS) (_url : String) (dst : FPath) : FS :=
  FS.set fs dst Entry.dir

/-! ### Constants and templates of `logics.py` -/

/-- The bundled resources directory (`Path(__file__).parent / "resources"`);
its actual absolute location depends on where the package is installed and is
modelled as a fixed absolute path. -/
def RESOURCES_PATH : FPath := ⟨true, ["dotfiles", "resources"]⟩

/-- The `GIT_CONFIG_TEMPLATE` literal with `format` applied to its single
placeholder (the triple-quoted Python string opens and closes with a
newline). -/
def GIT_CONFIG_TEMPLATE (p : String) : String :=
  "\n[include]\n    path = " ++ p ++
  "\n[filter \"lfs\"]\n    clean = git-lfs clean -- %f\n    smudge = git-lfs smudge -- %f\n    process = git-lfs filter-process\n    required = true\n"

/-- The `ZSHRC_TEMPLATE` literal with `format` applied. -/
def ZSHRC_TEMPLATE (p : String) : String :=
  "\nZSHRC_FILE=" ++ p ++ "\n. $ZSHRC_FILE\n"

/-- The `ZSHENV_TEMPLATE` literal with `format` applied. -/
def ZSHENV_TEMPLATE (p : String) : String :=
  "\nZSHENV_FILE=" ++ p ++ "\n. $ZSHENV_FILE\n"

/-- URL of the zsh-completions repository cloned by the Zsh installer. -/
def ZSH_COMPLETIONS_URL : String := "https://github.com/zsh-users/zsh-completions.git"

/-- URL of the vim-plug script downloaded by the Vim installer. -/
def PLUG_VIM_URL : String :=
  "https://raw.githubusercontent.com/junegunn/vim-plug/master/plug.vim"

/-- Python `str.strip()`: drop leading and trailing whitespace (the
whitespace characters that occur in the templates are covered by
`Char.isWhitespace`).  Implemented structurally on the character list so
that concrete instances evaluate inside the kernel. -/
def pyStrip (s : String) : String :=
  String.mk (((s.data.dropWhile Char.isWhitespace).reverse.dropWhile
    Char.isWhitespace).reverse)

/-- The `dataclass Option` of `logics.py`: destination directory and
overwrite flag (named `Opts` here to avoid the Lean `Option` type). -/
structure Opts where
  dest_dir : FPath
  overwrite : Bool
deriving DecidableEq

/-- `logics.program_exist`: resolve the executable on the search path
(`shutil.which`, abstracted as the `which` environment predicate); the
console warning on absence is a side effect outside the model and every
caller discards the returned boolean. -/
def program_exist (which : String → Bool) (_base program : String) : Bool :=
  which program

/-! ### Placement primitives -/

/-- `SymLink.run`: symlink the bundled resource `filename` to
`dest_dir/filename`.  Mirrors `logics.py` lines 73-85: assert the resource
exists; when the destination `exists()` either return `SKIP` (no overwrite)
or unlink it only when it `is_symlink()`; in every remaining case fall
through to `symlink_to`, which raises when any entry is present at the
destination path. -/
def SymLink.run (options : Opts) (filename : String) (fs : FS) :
    Except Err (ExitCode × FS) :=
  let src := RESOURCES_PATH.join (FPath.rel filename)
  let dst := options.dest_dir.join (FPath.rel filename)
  if FS.pexists fs src = false then Except.error Err.assertionError
  else if FS.pexists fs dst then
    if options.overwrite then
      let fs1 := if FS.is_symlink fs dst then FS.unlink fs dst else fs
      (FS.symlink_to fs1 dst src).map (fun fs2 => (ExitCode.SUCCESS, fs2))
    else Except.ok (ExitCode.SKIP, fs)
  else
    (FS.symlink_to fs dst src).map (fun fs2 => (ExitCode.SUCCESS, fs2))

/-- The destination path `CopyFile.run` writes to (`logics.py` line 100):
the join of the option's destination directory with the `dst_path`
argument. -/
def CopyFile.dst (options : Opts) (dst_path : FPath) : FPath :=
  options.dest_dir.join dst_path

/-- `CopyFile.run`: copy `src_path` to `dest_dir / dst_path`.  Mirrors
`logics.py` lines 99-114: assert the source exists; when the destination
`exists()` return `SKIP` without overwrite; with overwrite unlink a symlink
destination, keep a regular-file destination (overwritten by the copy), and
return `SKIP` for anything else; then `shutil.copy`. -/
def CopyFile.run (options : Opts) (src_path dst_path : FPath) (fs : FS) :
    Except Err (ExitCode × FS) :=
  let dst := CopyFile.dst options dst_path
  if FS.pexists fs src_path = false then Except.error Err.assertionError
  else if FS.pexists fs dst then
    if options.overwrite then
      if FS.is_symlink fs dst then
        (FS.copy (FS.unlink fs dst) src_path dst).map
          (fun fs2 => (ExitCode.SUCCESS, fs2))
      else if FS.is_file fs dst then
        (FS.copy fs src_path dst).map (fun fs2 => (ExitCode.SUCCESS, fs2))
      else Except.ok (ExitCode.SKIP, fs)
    else Except.ok (ExitCode.SKIP, fs)
  else
    (FS.copy fs src_path dst).map (fun fs2 => (ExitCode.SUCCESS, fs2))

/-! ### Per-tool installers -/

/-- `TMux.run`: warn-only checks for `tmux` and `xsel`, then symlink
`.tmux.conf`. -/
def TMux.run (which : String → Bool) (options : Opts) (fs : FS) :
    Except Err (ExitCode × FS) :=
  let _ := program_exist which "tmux" "tmux"
  let _ := program_exist which "tmux" "xsel"
  SymLink.run options ".tmux.conf" fs

/-- `Vimperator.run`: symlink `.vimperatorrc`. -/
def Vimperator.run (options : Opts) (fs : FS) : Except Err (ExitCode × FS) :=
  SymLink.run options ".vimperatorrc" fs

/-- `Gdb.run`: warn-only check for `gdb`, then symlink `.gdbinit`. -/
def Gdb.run (which : String → Bool) (options : Opts) (fs : FS) :
    Except Err (ExitCode × FS) :=
  let _ := program_exist which "gdb" "gdb"
  SymLink.run options ".gdbinit" fs

/-- `Fvwm2.run`: warn-only check for `fvwm2`, then symlink `.fvwm2rc`. -/
def Fvwm2.run (which : String → Bool) (options : Opts) (fs : FS) :
    Except Err (ExitCode × FS) :=
  let _ := program_exist which "fvwm2" "fvwm2"
  SymLink.run options ".fvwm2rc" fs

/-- `Git.run`: warn-only checks for `git` and `git-lfs`; assert the bundled
`.gitconfig` resource exists; write the stripped instantiated
`GIT_CONFIG_TEMPLATE` to a fresh temporary file `tmp` (the
`NamedTemporaryFile`); copy it to the destination with `dst_path` set to the
already-joined absolute `dest_dir/.gitconfig`; the temporary file is removed
when the `with` block closes. -/
def Git.run (which : String → Bool) (options : Opts) (tmp : FPath) (fs : FS) :
    Except Err (ExitCode × FS) :=
  let _ := program_exist which "git" "git"
  let _ := program_exist which "git" "git-lfs"
  let target := ".gitconfig"
  let src := RESOURCES_PATH.join (FPath.rel target)
  if FS.pexists fs src = false then Except.error Err.assertionError
  else
    let fs1 := FS.set fs tmp (Entry.file (pyStrip (GIT_CONFIG_TEMPLATE src.toStr)))
    match CopyFile.run options tmp (options.dest_dir.join (FPath.rel target)) fs1 with
    | Except.ok (code, fs2) => Except.ok (code, FS.unlink fs2 tmp)
    | Except.error e => Except.error e

/-- The stripped `.zshrc` wrapper content the Zsh installer generates. -/
def zshrcContent : String :=
  pyStrip (ZSHRC_TEMPLATE (RESOURCES_PATH.join (FPath.rel ".zshrc")).toStr)

/-- The stripped `.zshenv` wrapper content the Zsh installer generates. -/
def zshenvContent : String :=
  pyStrip (ZSHENV_TEMPLATE (RESOURCES_PATH.join (FPath.rel ".zshenv")).toStr)

/-- The copy phase of `Zsh.run` (everything after the conditional clone):
generate and copy the `.zshrc` wrapper (early return when that copy is not
`SUCCESS`), then the `.zshenv` wrapper, each through a fresh temporary file
removed when its `with` block closes. -/
def Zsh.copies (options : Opts) (tmp1 tmp2 : FPath) (fs0 : FS) :
    Except Err (ExitCode × FS) :=
  let conf1 := RESOURCES_PATH.join (FPath.rel ".zshrc")
  if FS.pexists fs0 conf1 = false then Except.error Err.assertionError
  else
    let fs1 := FS.set fs0 tmp1 (Entry.file zshrcContent)
    match CopyFile.run options tmp1 (options.dest_dir.join (FPath.rel ".zshrc")) fs1 with
    | Except.error e => Except.error e
    | Except.ok (ret, fs2) =>
      let fs3 := FS.unlink fs2 tmp1
      if ret ≠ ExitCode.SUCCESS then Except.ok (ret, fs3)
      else
        let conf2 := RESOURCES_PATH.join (FPath.rel ".zshenv")
        if FS.pexists fs3 conf2 = false then Except.error Err.assertionError
        else
          let fs4 := FS.set fs3 tmp2 (Entry.file zshenvContent)
          match CopyFile.run options tmp2 (options.dest_dir.join (FPath.rel ".zshenv")) fs4 with
          | Except.error e => Except.error e
          | Except.ok (ret2, fs5) => Except.ok (ret2, FS.unlink fs5 tmp2)

/-- `Zsh.run`: warn-only check for `zsh`; clone the zsh-completions
repository into `dest_dir/.zsh-completions` only when that path does not
`exists()`; then run the copy phase.  The returned event trace records the
clone when it happens. -/
def Zsh.run (which : String → Bool) (options : Opts) (tmp1 tmp2 : FPath)
    (fs : FS) : (Except Err (ExitCode × FS)) × List Event :=
  let _ := program_exist which "zsh" "zsh"
  let zsh_completions := options.dest_dir.join (FPath.rel ".zsh-completions")
  let fs0 :=
    if FS.pexists fs zsh_completions then fs
    else FS.cloneRepo fs ZSH_COMPLETIONS_URL zsh_completions
  let tr : List Event :=
    if FS.pexists fs zsh_completions then []
    else [Event.gitClone ZSH_COMPLETIONS_URL zsh_completions]
  (Zsh.copies options tmp1 tmp2 fs0, tr)

/-- The `.vimrc` wrapper content: the source line with the resource path
formatted in. -/
def vimrcWrapper (p : String) : String := "execute 'source " ++ p ++ "'"

/-- The `.vimrc` phase of `Vim.run`: assert the bundled `.vimrc` resource
exists, write the wrapper to a fresh temporary file and copy it to the
destination (with `dst_path` the already-joined absolute `dest_dir/.vimrc`). -/
def Vim.installVimrc (options : Opts) (tmp : FPath) (fs : FS) :
    Except Err (ExitCode × FS) :=
  let target := ".vimrc"
  let conf_path := RESOURCES_PATH.join (FPath.rel target)
  if FS.pexists fs conf_path = false then Except.error Err.assertionError
  else
    let fs1 := FS.set fs tmp (Entry.file (vimrcWrapper conf_path.toStr))
    match CopyFile.run options tmp (options.dest_dir.join (FPath.rel target)) fs1 with
    | Except.ok (code, fs2) => Except.ok (code, FS.unlink fs2 tmp)
    | Except.error e => Except.error e

/-- The directory phase of `Vim.run`: make `dest_dir/.vim/autoload` when it
does not `exists()`. -/
def Vim.mkdirPhase (options : Opts) (fs : FS) : Except Err FS :=
  let dot_vim := (options.dest_dir.join (FPath.rel ".vim")).join (FPath.rel "autoload")
  if FS.pexists fs dot_vim then Except.ok fs else FS.mkdir_p fs dot_vim

/-- `Vim.run` continued: after the directory phase, download plug.vim when
the local copy is absent or overwrite is set, then install the wrapper. -/
def Vim.run (which : String → Bool) (options : Opts) (response : Nat × String)
    (tmp : FPath) (fs : FS) : (Except Err (ExitCode × FS)) × List Event :=
  let _ := program_exist which "vim" "vim"
  let dot_vim := (options.dest_dir.join (FPath.rel ".vim")).join (FPath.rel "autoload")
  match Vim.mkdirPhase options fs with
  | Except.error e => (Except.error e, [])
  | Except.ok fs0 =>
    let plug_vim := dot_vim.join (FPath.rel "plug.vim")
    if (!FS.pexists fs0 plug_vim) || options.overwrite then
      let tr := [Event.httpGet PLUG_VIM_URL]
      if response.1 ≠ 200 then (Except.error Err.assertionError, tr)
      else
        match FS.writeFile fs0 plug_vim response.2 with
        | Except.error e => (Except.error e, tr)
        | Except.ok fs2 => (Vim.installVimrc options tmp fs2, tr)
    else (Vim.installVimrc options tmp fs0, [])

/-- `CommandLineHelper.run`: three warn-only checks, no file placement,
always `SUCCESS`. -/
def CommandLineHelper.run (which : String → Bool) (_options : Opts) (fs : FS) :
    Except Err (ExitCode × FS) :=
  let _ := program_exist which "command-line helper" "peco"
  let _ := program_exist which "command-line helper" "fzf"
  let _ := program_exist which "command-line helper" "direnv"
  Except.ok (ExitCode.SUCCESS, fs)

/-! ### Substring search (for the `[filter "lfs"]` content check) -/

/-- Contiguous-sublist test on character lists. -/
def listHasSub (sub : List Char) : List Char → Bool
  | [] => sub.isEmpty
  | c :: rest => sub.isPrefixOf (c :: rest) || listHasSub sub rest

/-- Containment of `sub` as a contiguous substring of `s`. -/
def strHasSub (s sub : String) : Bool := listHasSub sub.toList s.toList

/-! ### Basic lemmas about the filesystem model -/

theorem FS.lookup_set (fs : FS) (p : FPath) (e : Entry) (q : FPath) :
    FS.lookup (FS.set fs p e) q = if p = q then some e else FS.lookup fs q := by
  simp [FS.set, FS.lookup]

theorem FS.lookup_unlink (fs : FS) (p q : FPath) :
    FS.lookup (FS.unlink fs p) q = if p = q then none else FS.lookup fs q := by
  simp [FS.unlink, FS.lookup]

theorem FS.length_set (fs : FS) (p : FPath) (e : Entry) :
    (FS.set fs p e).length = fs.length + 1 := by simp [FS.set]

theorem FS.length_unlink (fs : FS) (p : FPath) :
    (FS.unlink fs p).length = fs.length + 1 := by simp [FS.unlink]

theorem FS.length_pos_of_lookup {fs : FS} {p : FPath} {e : Entry}
    (h : FS.lookup fs p = some e) : 1 ≤ fs.length := by
  cases fs with
  | nil => simp [FS.lookup] at h
  | cons kv rest => simp

theorem FS.resolve_lookup_file {fs : FS} {p : FPath} {c : String}
    (h : FS.lookup fs p = some (Entry.file c)) (n : Nat) :
    FS.resolve fs (n + 1) p = some (Entry.file c) := by
  simp [FS.resolve, h]

theorem FS.resolve_lookup_dir {fs : FS} {p : FPath}
    (h : FS.lookup fs p = some Entry.dir) (n : Nat) :
    FS.resolve fs (n + 1) p = some Entry.dir := by
  simp [FS.resolve, h]

theorem FS.resolve_lookup_none {fs : FS} {p : FPath}
    (h : FS.lookup fs p = none) (n : Nat) : FS.resolve fs (n + 1) p = none := by
  simp [FS.resolve, h]

theorem FS.resolve_lookup_symlink {fs : FS} {p t : FPath}
    (h : FS.lookup fs p = some (Entry.symlink t)) (n : Nat) :
    FS.resolve fs (n + 1) p = FS.resolve fs n t := by
  simp [FS.resolve, h]

theorem FS.pexists_lookup_none {fs : FS} {p : FPath}
    (h : FS.lookup fs p = none) : FS.pexists fs p = false := by
  simp [FS.pexists, FS.fuel, FS.resolve_lookup_none h]

theorem FS.pexists_lookup_file {fs : FS} {p : FPath} {c : String}
    (h : FS.lookup fs p = some (Entry.file c)) : FS.pexists fs p = true := by
  simp [FS.pexists, FS.fuel, FS.resolve_lookup_file h]

theorem FS.pexists_lookup_dir {fs : FS} {p : FPath}
    (h : FS.lookup fs p = some Entry.dir) : FS.pexists fs p = true := by
  simp [FS.pexists, FS.fuel, FS.resolve_lookup_dir h]

theorem FS.size_lookup_file {fs : FS} {p : FPath} {c : String}
    (h : FS.lookup fs p = some (Entry.file c)) : FS.size fs p = some c.length := by
  simp [FS.size, FS.fuel, FS.resolve_lookup_file h]

theorem FS.pexists_symlink_file {fs : FS} {p t : FPath} {c : String}
    (h1 : FS.lookup fs p = some (Entry.symlink t))
    (h2 : FS.lookup fs t = some (Entry.file c)) : FS.pexists fs p = true := by
  obtain ⟨m, hm⟩ : ∃ m, fs.length = m + 1 :=
    ⟨fs.length - 1, by have := FS.length_pos_of_lookup h1; omega⟩
  simp [FS.pexists, FS.fuel, hm, FS.resolve_lookup_symlink h1,
    FS.resolve_lookup_file h2]

theorem FS.size_symlink_file {fs : FS} {p t : FPath} {c : String}
    (h1 : FS.lookup fs p = some (Entry.symlink t))
    (h2 : FS.lookup fs t = some (Entry.file c)) : FS.size fs p = some c.length := by
  obtain ⟨m, hm⟩ : ∃ m, fs.length = m + 1 :=
    ⟨fs.length - 1, by have := FS.length_pos_of_lookup h1; omega⟩
  simp [FS.size, FS.fuel, hm, FS.resolve_lookup_symlink h1,
    FS.resolve_lookup_file h2]

theorem FS.resolve_mono {fs : FS} :
    ∀ (m n : Nat), m ≤ n → ∀ (p : FPath) (e : Entry),
      FS.resolve fs m p = some e → FS.resolve fs n p = some e := by
  intro m
  induction m with
  | zero => intro n _ p e h; simp [FS.resolve] at h
  | succ k ih =>
    intro n hmn p e h
    obtain ⟨j, rfl⟩ : ∃ j, n = j + 1 := ⟨n - 1, by omega⟩
    cases hl : FS.lookup fs p with
    | none => rw [FS.resolve_lookup_none hl] at h; exact absurd h (by simp)
    | some ent =>
      cases ent with
      | symlink t =>
        rw [FS.resolve_lookup_symlink hl] at h
        rw [FS.resolve_lookup_symlink hl]
        exact ih j (by omega) t e h
      | file c => rw [FS.resolve_lookup_file hl] at h ⊢; exact h
      | dir => rw [FS.resolve_lookup_dir hl] at h ⊢; exact h

theorem FS.resolve_mono_isSome {fs : FS} {m n : Nat} {p : FPath} (hmn : m ≤ n)
    (h : (FS.resolve fs m p).isSome = true) :
    (FS.resolve fs n p).isSome = true := by
  obtain ⟨e, he⟩ := Option.isSome_iff_exists.mp h
  exact Option.isSome_iff_exists.mpr ⟨e, FS.resolve_mono m n hmn p e he⟩

/-- Transfer of successful symlink resolution from `fs` to `fs'`: provided
every path outside `T` keeps its binding or gets a non-symlink entry, and
paths in `T` were unbound in `fs`, any path resolving in `fs` resolves in
`fs'` with the same fuel. -/
theorem FS.resolve_transfer {fs fs' : FS} {T : List FPath}
    (hT : ∀ q, q ∈ T → FS.lookup fs q = none)
    (hF : ∀ q, q ∉ T → FS.lookup fs' q = FS.lookup fs q ∨
          ∃ e, FS.lookup fs' q = some e ∧ ∀ t, e ≠ Entry.symlink t) :
    ∀ (fuel : Nat) (p : FPath), (FS.resolve fs fuel p).isSome = true →
      (FS.resolve fs' fuel p).isSome = true := by
  intro fuel
  induction fuel with
  | zero => intro p h; simp [FS.resolve] at h
  | succ n ih =>
    intro p h
    by_cases hq : p ∈ T
    · rw [FS.resolve_lookup_none (hT p hq)] at h; simp at h
    · rcases hF p hq with heq | ⟨e, he, hns⟩
      · cases hl : FS.lookup fs p with
        | none => rw [FS.resolve_lookup_none hl] at h; simp at h
        | some ent =>
          cases ent with
          | symlink t =>
            rw [FS.resolve_lookup_symlink hl] at h
            rw [FS.resolve_lookup_symlink (heq.trans hl)]
            exact ih t h
          | file c => rw [FS.resolve_lookup_file (heq.trans hl)]; simp
          | dir => rw [FS.resolve_lookup_dir (heq.trans hl)]; simp
      · cases e with
        | symlink t => exact absurd rfl (hns t)
        | file c => rw [FS.resolve_lookup_file he]; simp
        | dir => rw [FS.resolve_lookup_dir he]; simp

theorem FPath.join_rel (p : FPath) (s : String) :
    p.join (FPath.rel s) = ⟨p.absolute, p.components ++ [s]⟩ := by
  simp [FPath.join, FPath.rel]

theorem FPath.join_rel_ne {p : FPath} {a b : String} (h : a ≠ b) :
    p.join (FPath.rel a) ≠ p.join (FPath.rel b) := by
  simp [FPath.join_rel]
  intro hc
  exact absurd hc h

theorem FS.writeFile_ok_shape {fs fs' : FS} {p : FPath} {c : String}
    (h : FS.writeFile fs p c = Except.ok fs') :
    ∃ p', fs' = FS.set fs p' (Entry.file c) := by
  unfold FS.writeFile at h
  split at h
  · exact absurd h (by simp)
  · rename_i p' hr
    split at h
    · exact absurd h (by simp)
    · simp at h
      exact ⟨p', h.symm⟩

theorem FS.copy_ok_shape {fs fs' : FS} {s d : FPath}
    (h : FS.copy fs s d = Except.ok fs') :
    ∃ p' c, fs' = FS.set fs p' (Entry.file c) := by
  unfold FS.copy at h
  split at h
  · rename_i c hr
    obtain ⟨p', hp⟩ := FS.writeFile_ok_shape h
    exact ⟨p', c, hp⟩
  · exact absurd h (by simp)
  · exact absurd h (by simp)

theorem FS.lookup_unlink_self (fs : FS) (p : FPath) :
    FS.lookup (FS.unlink fs p) p = none := by simp [FS.lookup_unlink]

theorem FS.writeFile_lookup_none {fs : FS} {p : FPath} {c : String}
    (hnone : FS.lookup fs p = none) :
    FS.writeFile fs p c = Except.ok (FS.set fs p (Entry.file c)) := by
  simp [FS.writeFile, FS.fuel, FS.resolvePath, hnone]

theorem FS.copy_unlink_eq {fs fs' : FS} {s dst : FPath}
    (h : FS.copy (FS.unlink fs dst) s dst = Except.ok fs') :
    ∃ c, fs' = FS.set (FS.unlink fs dst) dst (Entry.file c) := by
  have hnone : FS.lookup (FS.unlink fs dst) dst = none :=
    FS.lookup_unlink_self fs dst
  have hdir : FS.is_dir (FS.unlink fs dst) dst = false := by
    simp [FS.is_dir, FS.fuel, FS.resolve_lookup_none hnone]
  unfold FS.copy at h
  split at h
  · rename_i c hr
    rw [hdir] at h
    rw [if_neg (by simp : ¬(false = true))] at h
    have h2 : FS.writeFile (FS.unlink fs dst) dst c = Except.ok fs' := h
    rw [FS.writeFile_lookup_none hnone] at h2
    exact ⟨c, by injection h2 with h3; exact h3.symm⟩
  · exact absurd h (by simp)
  · exact absurd h (by simp)

/-- Pointwise effect and length growth of a completed `CopyFile.run`: every
path keeps its binding or ends bound to a regular file, and the filesystem
does not shrink. -/
theorem CopyFile.run_ok_facts {o : Opts} {sp dp : FPath} {fs fs' : FS}
    {code : ExitCode}
    (h : CopyFile.run o sp dp fs = Except.ok (code, fs')) :
    (∀ q, FS.lookup fs' q = FS.lookup fs q ∨
      ∃ s, FS.lookup fs' q = some (Entry.file s)) ∧ fs.length ≤ fs'.length := by
  simp only [CopyFile.run] at h
  by_cases h1 : FS.pexists fs sp = false
  · rw [if_pos h1] at h; exact absurd h (by simp)
  · rw [if_neg h1] at h
    by_cases h2 : FS.pexists fs (CopyFile.dst o dp) = true
    · rw [if_pos h2] at h
      by_cases h3 : o.overwrite = true
      · rw [if_pos h3] at h
        by_cases h4 : FS.is_symlink fs (CopyFile.dst o dp) = true
        · rw [if_pos h4] at h
          cases hc : FS.copy (FS.unlink fs (CopyFile.dst o dp)) sp
              (CopyFile.dst o dp) with
          | error e => rw [hc] at h; exact absurd h (by simp [Except.map])
          | ok fs2 =>
            rw [hc] at h
            simp [Except.map] at h
            obtain ⟨c, hcc⟩ := FS.copy_unlink_eq hc
            rw [← h.2, hcc]
            constructor
            · intro q
              by_cases hq : CopyFile.dst o dp = q
              · exact Or.inr ⟨c, by rw [FS.lookup_set]; simp [hq]⟩
              · rw [FS.lookup_set, if_neg hq, FS.lookup_unlink, if_neg hq]
                exact Or.inl rfl
            · rw [FS.length_set, FS.length_unlink]; omega
        · rw [if_neg h4] at h
          by_cases h5 : FS.is_file fs (CopyFile.dst o dp) = true
          · rw [if_pos h5] at h
            cases hc : FS.copy fs sp (CopyFile.dst o dp) with
            | error e => rw [hc] at h; exact absurd h (by simp [Except.map])
            | ok fs2 =>
              rw [hc] at h
              simp [Except.map] at h
              obtain ⟨p', c, hcc⟩ := FS.copy_ok_shape hc
              rw [← h.2, hcc]
              constructor
              · intro q
                by_cases hq : p' = q
                · exact Or.inr ⟨c, by rw [FS.lookup_set]; simp [hq]⟩
                · rw [FS.lookup_set, if_neg hq]; exact Or.inl rfl
              · rw [FS.length_set]; omega
          · rw [if_neg h5] at h
            simp at h
            rw [← h.2]
            exact ⟨fun q => Or.inl rfl, le_refl _⟩
      · rw [if_neg h3] at h
        simp at h
        rw [← h.2]
        exact ⟨fun q => Or.inl rfl, le_refl _⟩
    · rw [if_neg h2] at h
      cases hc : FS.copy fs sp (CopyFile.dst o dp) with
      | error e => rw [hc] at h; exact absurd h (by simp [Except.map])
      | ok fs2 =>
        rw [hc] at h
        simp [Except.map] at h
        obtain ⟨p', c, hcc⟩ := FS.copy_ok_shape hc
        rw [← h.2, hcc]
        constructor
        · intro q
          by_cases hq : p' = q
          · exact Or.inr ⟨c, by rw [FS.lookup_set]; simp [hq]⟩
          · rw [FS.lookup_set, if_neg hq]; exact Or.inl rfl
        · rw [FS.length_set]; omega

theorem FS.lookup_some_of_pexists {fs : FS} {p : FPath}
    (h : FS.pexists fs p = true) : ∃ e, FS.lookup fs p = some e := by
  cases hl : FS.lookup fs p with
  | none => rw [FS.pexists_lookup_none hl] at h; exact absurd h (by simp)
  | some e => exact ⟨e, rfl⟩

theorem FS.is_symlink_lookup {fs : FS} {p : FPath}
    (h : FS.is_symlink fs p = true) :
    ∃ t, FS.lookup fs p = some (Entry.symlink t) := by
  unfold FS.is_symlink at h
  cases hl : FS.lookup fs p with
  | none => rw [hl] at h; exact absurd h (by simp)
  | some e =>
    cases e with
    | symlink t => exact ⟨t, rfl⟩
    | file c => rw [hl] at h; exact absurd h (by simp)
    | dir => rw [hl] at h; exact absurd h (by simp)

theorem FS.lookup_file_of_is_file_not_symlink {fs : FS} {p : FPath}
    (hf : FS.is_file fs p = true) (hns : FS.is_symlink fs p = false) :
    ∃ c, FS.lookup fs p = some (Entry.file c) := by
  cases hl : FS.lookup fs p with
  | none =>
    unfold FS.is_file at hf
    rw [show FS.resolve fs (FS.fuel fs) p = none by
      simp only [FS.fuel]; exact FS.resolve_lookup_none hl _] at hf
    exact absurd hf (by simp)
  | some e =>
    cases e with
    | file c => exact ⟨c, rfl⟩
    | symlink t => rw [FS.is_symlink, hl] at hns; exact absurd hns (by simp)
    | dir =>
      unfold FS.is_file at hf
      rw [show FS.resolve fs (FS.fuel fs) p = some Entry.dir by
        simp only [FS.fuel]; exact FS.resolve_lookup_dir hl _] at hf
      exact absurd hf (by simp)

theorem FS.writeFile_lookup_file {fs : FS} {p : FPath} {c c0 : String}
    (h : FS.lookup fs p = some (Entry.file c0)) :
    FS.writeFile fs p c = Except.ok (FS.set fs p (Entry.file c)) := by
  simp [FS.writeFile, FS.fuel, FS.resolvePath, h]

theorem FS.copy_eval_file_none {fs : FS} {sp dst : FPath} {c : String}
    (hsp : FS.lookup fs sp = some (Entry.file c))
    (hdst : FS.lookup fs dst = none) :
    FS.copy fs sp dst = Except.ok (FS.set fs dst (Entry.file c)) := by
  have h1 : FS.resolve fs (FS.fuel fs) sp = some (Entry.file c) := by
    simp only [FS.fuel]; exact FS.resolve_lookup_file hsp _
  have hdir : FS.is_dir fs dst = false := by
    simp only [FS.is_dir, FS.fuel, FS.resolve_lookup_none hdst]
  simp [FS.copy, h1, hdir, FS.writeFile_lookup_none hdst]

theorem FS.copy_eval_file_file {fs : FS} {sp dst : FPath} {c c0 : String}
    (hsp : FS.lookup fs sp = some (Entry.file c))
    (hdst : FS.lookup fs dst = some (Entry.file c0)) :
    FS.copy fs sp dst = Except.ok (FS.set fs dst (Entry.file c)) := by
  have h1 : FS.resolve fs (FS.fuel fs) sp = some (Entry.file c) := by
    simp only [FS.fuel]; exact FS.resolve_lookup_file hsp _
  have hdir : FS.is_dir fs dst = false := by
    simp only [FS.is_dir, FS.fuel]
    rw [FS.resolve_lookup_file hdst]
  simp [FS.copy, h1, hdir, FS.writeFile_lookup_file hdst]

theorem FS.symlink_to_none {fs : FS} {dst src : FPath}
    (h : FS.lookup fs dst = none) :
    FS.symlink_to fs dst src =
      Except.ok (FS.set fs dst (Entry.symlink src)) := by
  simp [FS.symlink_to, h]

theorem FS.symlink_to_some {fs : FS} {dst src : FPath} {e : Entry}
    (h : FS.lookup fs dst = some e) :
    FS.symlink_to fs dst src = Except.error Err.fileExistsError := by
  simp [FS.symlink_to, h]

/-! ### Concrete sample values used by witnesses and counterexamples -/

/-- A sample absolute destination directory. -/
def sampleDest : FPath := ⟨true, ["home", "user"]⟩

/-- Sample options without overwrite. -/
def sampleOptF : Opts := ⟨sampleDest, false⟩

/-- Sample options with overwrite. -/
def sampleOptT : Opts := ⟨sampleDest, true⟩

/-- Sample environment in which every program resolves. -/
def sampleWhich : String → Bool := fun _ => true

/-! ### Claim C10 -/

/-- C10: `CopyFile` computes its effective destination as `dest_dir / dst_path`;
when an installer passes the already-joined absolute path `dest_dir/target`
as `dst_path` (as `Git.run`, `Zsh.run` and `Vim.installVimrc` all do), the
join with an absolute right-hand side returns it unchanged, so the effective
destination is `dest_dir/target` exactly once — `dest_dir` is not prefixed
twice. -/
theorem copyFile_dst_not_doubled (options : Opts) (target : String)
    (h : options.dest_dir.absolute = true) :
    CopyFile.dst options (options.dest_dir.join (FPath.rel target)) =
      options.dest_dir.join (FPath.rel target) := by
  simp [CopyFile.dst, FPath.join, FPath.rel, h]

/-- Witness for C10 at the sample absolute destination and `.gitconfig`. -/
theorem copyFile_dst_not_doubled_witness :
    CopyFile.dst sampleOptF (sampleOptF.dest_dir.join (FPath.rel ".gitconfig")) =
      sampleOptF.dest_dir.join (FPath.rel ".gitconfig") :=
  copyFile_dst_not_doubled sampleOptF ".gitconfig" (by decide)

/-! ### Claim C9 -/

/-- C9: when `SymLink.run` is invoked with overwrite set and the destination
exists but is not a symbolic link (a plain file or directory), the
destination is not removed and link creation is attempted anyway, so the
OS-level symlink call fails with an unhandled `FileExistsError`; no
`ExitCode` is returned. -/
theorem symLink_overwrite_nonsymlink_error (options : Opts) (filename : String)
    (fs : FS) (hov : options.overwrite = true)
    (hsrc : FS.pexists fs (RESOURCES_PATH.join (FPath.rel filename)) = true)
    (hdst : FS.pexists fs (options.dest_dir.join (FPath.rel filename)) = true)
    (hns : FS.is_symlink fs (options.dest_dir.join (FPath.rel filename)) = false) :
    SymLink.run options filename fs = Except.error Err.fileExistsError := by
  obtain ⟨e, he⟩ := FS.lookup_some_of_pexists hdst
  simp [SymLink.run, hsrc, hdst, hov, hns, FS.symlink_to_some he, Except.map]

/-- Witness for C9: overwrite over a plain-file destination errors out. -/
theorem symLink_overwrite_nonsymlink_error_witness :
    SymLink.run sampleOptT ".tmux.conf"
      [(RESOURCES_PATH.join (FPath.rel ".tmux.conf"), some (Entry.file "a")),
       (sampleDest.join (FPath.rel ".tmux.conf"), some (Entry.file "old"))] =
      Except.error Err.fileExistsError :=
  symLink_overwrite_nonsymlink_error sampleOptT ".tmux.conf" _
    (by decide) (by decide) (by decide) (by decide)

/-! ### Claim C1 -/

/-- Sample filesystem with the bundled resource present and a dangling
symbolic link left at the destination path. -/
def danglingFS : FS :=
  [(RESOURCES_PATH.join (FPath.rel ".tmux.conf"), some (Entry.file "a")),
   (sampleDest.join (FPath.rel ".tmux.conf"),
    some (Entry.symlink ⟨true, ["nowhere"]⟩))]

/-- C1 counterexample: with the bundled resource present and a dangling
symlink left at the destination, `dst.exists()` is false (so by the claim
the run should create the link and return SUCCESS), yet `symlink_to` raises
`FileExistsError` because an entry is still present at the path, and no
outcome is returned. -/
theorem symLink_run_dangling_cex :
    FS.pexists danglingFS (RESOURCES_PATH.join (FPath.rel ".tmux.conf")) = true ∧
    FS.pexists danglingFS (sampleOptF.dest_dir.join (FPath.rel ".tmux.conf")) = false ∧
    sampleOptF.overwrite = false ∧
    SymLink.run sampleOptF ".tmux.conf" danglingFS =
      Except.error Err.fileExistsError := by decide

/-- C1 (amended): for a `SymLink` run whose bundled resource exists: if the
destination `exists()` and overwrite is false, the run returns SKIP and the
filesystem is unmodified; if the destination `exists()`, overwrite is true
and the destination is itself a symlink, it is unlinked and a fresh link to
the resource is created, returning SUCCESS; if no entry at all is present at
the destination path (in particular, no leftover dangling symlink), the link
is created and SUCCESS is returned. -/
theorem symLink_run_cases (options : Opts) (filename : String) (fs : FS)
    (hsrc : FS.pexists fs (RESOURCES_PATH.join (FPath.rel filename)) = true) :
    (FS.pexists fs (options.dest_dir.join (FPath.rel filename)) = true →
      options.overwrite = false →
      SymLink.run options filename fs = Except.ok (ExitCode.SKIP, fs)) ∧
    (FS.pexists fs (options.dest_dir.join (FPath.rel filename)) = true →
      options.overwrite = true →
      FS.is_symlink fs (options.dest_dir.join (FPath.rel filename)) = true →
      ∃ fs', SymLink.run options filename fs = Except.ok (ExitCode.SUCCESS, fs') ∧
        FS.lookup fs' (options.dest_dir.join (FPath.rel filename)) =
          some (Entry.symlink (RESOURCES_PATH.join (FPath.rel filename))) ∧
        ∀ q, q ≠ options.dest_dir.join (FPath.rel filename) →
          FS.lookup fs' q = FS.lookup fs q) ∧
    (FS.lookup fs (options.dest_dir.join (FPath.rel filename)) = none →
      ∃ fs', SymLink.run options filename fs = Except.ok (ExitCode.SUCCESS, fs') ∧
        FS.lookup fs' (options.dest_dir.join (FPath.rel filename)) =
          some (Entry.symlink (RESOURCES_PATH.join (FPath.rel filename))) ∧
        ∀ q, q ≠ options.dest_dir.join (FPath.rel filename) →
          FS.lookup fs' q = FS.lookup fs q) := by
  refine ⟨?_, ?_, ?_⟩
  · intro hdst hov
    simp [SymLink.run, hsrc, hdst, hov]
  · intro hdst hov hsl
    refine ⟨FS.set (FS.unlink fs (options.dest_dir.join (FPath.rel filename)))
      (options.dest_dir.join (FPath.rel filename))
      (Entry.symlink (RESOURCES_PATH.join (FPath.rel filename))), ?_, ?_, ?_⟩
    · simp [SymLink.run, hsrc, hdst, hov, hsl, Except.map,
        FS.symlink_to_none (FS.lookup_unlink_self fs _)]
    · rw [FS.lookup_set]; simp
    · intro q hq
      rw [FS.lookup_set, if_neg (fun hc => hq hc.symm),
        FS.lookup_unlink, if_neg (fun hc => hq hc.symm)]
  · intro hdst
    refine ⟨FS.set fs (options.dest_dir.join (FPath.rel filename))
      (Entry.symlink (RESOURCES_PATH.join (FPath.rel filename))), ?_, ?_, ?_⟩
    · simp [SymLink.run, hsrc, FS.pexists_lookup_none hdst, Except.map,
        FS.symlink_to_none hdst]
    · rw [FS.lookup_set]; simp
    · intro q hq
      rw [FS.lookup_set, if_neg (fun hc => hq hc.symm)]

/-- Witness for C1 (amended), first branch: a pre-existing destination under
no-overwrite is reported as SKIP with the filesystem returned unchanged. -/
theorem symLink_run_cases_witness :
    SymLink.run sampleOptF ".tmux.conf"
      [(RESOURCES_PATH.join (FPath.rel ".tmux.conf"), some (Entry.file "a")),
       (sampleDest.join (FPath.rel ".tmux.conf"), some (Entry.file "old"))] =
      Except.ok (ExitCode.SKIP,
        [(RESOURCES_PATH.join (FPath.rel ".tmux.conf"), some (Entry.file "a")),
         (sampleDest.join (FPath.rel ".tmux.conf"), some (Entry.file "old"))]) :=
  (symLink_run_cases sampleOptF ".tmux.conf" _ (by decide)).1 (by decide) (by decide)

/-! ### Claim C2 -/

/-- C2: for a `CopyFile` run whose source path is an existing regular file
and whose destination `exists()`: without overwrite the run returns SKIP;
with overwrite a symlink destination is unlinked and the source copied
(SUCCESS); with overwrite a regular-file destination is copied over
(SUCCESS); with overwrite any other destination (e.g. a directory) yields
SKIP without copying. -/
theorem copyFile_run_cases (options : Opts) (sp dp : FPath) (fs : FS)
    (csrc : String)
    (hsp : FS.lookup fs sp = some (Entry.file csrc))
    (hdst : FS.pexists fs (CopyFile.dst options dp) = true) :
    (options.overwrite = false →
      CopyFile.run options sp dp fs = Except.ok (ExitCode.SKIP, fs)) ∧
    (options.overwrite = true →
      FS.is_symlink fs (CopyFile.dst options dp) = true →
      ∃ fs', CopyFile.run options sp dp fs = Except.ok (ExitCode.SUCCESS, fs') ∧
        FS.lookup fs' (CopyFile.dst options dp) = some (Entry.file csrc) ∧
        ∀ q, q ≠ CopyFile.dst options dp → FS.lookup fs' q = FS.lookup fs q) ∧
    (options.overwrite = true →
      FS.is_symlink fs (CopyFile.dst options dp) = false →
      FS.is_file fs (CopyFile.dst options dp) = true →
      ∃ fs', CopyFile.run options sp dp fs = Except.ok (ExitCode.SUCCESS, fs') ∧
        FS.lookup fs' (CopyFile.dst options dp) = some (Entry.file csrc) ∧
        ∀ q, q ≠ CopyFile.dst options dp → FS.lookup fs' q = FS.lookup fs q) ∧
    (options.overwrite = true →
      FS.is_symlink fs (CopyFile.dst options dp) = false →
      FS.is_file fs (CopyFile.dst options dp) = false →
      CopyFile.run options sp dp fs = Except.ok (ExitCode.SKIP, fs)) := by
  have hspE : FS.pexists fs sp = true := FS.pexists_lookup_file hsp
  refine ⟨?_, ?_, ?_, ?_⟩
  · intro hov
    simp [CopyFile.run, hspE, hdst, hov]
  · intro hov hsl
    obtain ⟨t, ht⟩ := FS.is_symlink_lookup hsl
    have hne : sp ≠ CopyFile.dst options dp := by
      intro hc; rw [hc, ht] at hsp; exact absurd hsp (by simp)
    have hsp2 : FS.lookup (FS.unlink fs (CopyFile.dst options dp)) sp =
        some (Entry.file csrc) := by
      rw [FS.lookup_unlink, if_neg (fun hc => hne hc.symm)]; exact hsp
    have hcopy := FS.copy_eval_file_none hsp2
      (FS.lookup_unlink_self fs (CopyFile.dst options dp))
    refine ⟨FS.set (FS.unlink fs (CopyFile.dst options dp))
      (CopyFile.dst options dp) (Entry.file csrc), ?_, ?_, ?_⟩
    · simp [CopyFile.run, hspE, hdst, hov, hsl, hcopy, Except.map]
    · rw [FS.lookup_set]; simp
    · intro q hq
      rw [FS.lookup_set, if_neg (fun hc => hq hc.symm),
        FS.lookup_unlink, if_neg (fun hc => hq hc.symm)]
  · intro hov hsl hf
    obtain ⟨c0, hc0⟩ := FS.lookup_file_of_is_file_not_symlink hf hsl
    have hcopy := FS.copy_eval_file_file hsp hc0
    refine ⟨FS.set fs (CopyFile.dst options dp) (Entry.file csrc), ?_, ?_, ?_⟩
    · simp [CopyFile.run, hspE, hdst, hov, hsl, hf, hcopy, Except.map]
    · rw [FS.lookup_set]; simp
    · intro q hq
      rw [FS.lookup_set, if_neg (fun hc => hq hc.symm)]
  · intro hov hsl hf
    simp [CopyFile.run, hspE, hdst, hov, hsl, hf]

/-- Witness for C2, last branch: overwrite onto a directory destination is a
SKIP without copying. -/
theorem copyFile_run_cases_witness :
    CopyFile.run sampleOptT ⟨true, ["tmp", "t0"]⟩ (FPath.rel ".gitconfig")
      [(⟨true, ["tmp", "t0"]⟩, some (Entry.file "hello")),
       (sampleDest.join (FPath.rel ".gitconfig"), some Entry.dir)] =
      Except.ok (ExitCode.SKIP,
        [(⟨true, ["tmp", "t0"]⟩, some (Entry.file "hello")),
         (sampleDest.join (FPath.rel ".gitconfig"), some Entry.dir)]) :=
  (copyFile_run_cases sampleOptT ⟨true, ["tmp", "t0"]⟩ (FPath.rel ".gitconfig")
      _ "hello" (by decide) (by decide)).2.2.2 (by decide) (by decide) (by decide)

/-! ### Claim C3 -/

/-- First and second `SymLink.run` on an empty destination: SUCCESS with a
non-empty destination, then SKIP leaving the filesystem untouched. -/
theorem symLink_first_second (options : Opts) (f : String) (fs : FS) (c : String)
    (hov : options.overwrite = false)
    (hres : FS.lookup fs (RESOURCES_PATH.join (FPath.rel f)) = some (Entry.file c))
    (hc : 0 < c.length)
    (hdst : FS.lookup fs (options.dest_dir.join (FPath.rel f)) = none) :
    ∃ fs1, SymLink.run options f fs = Except.ok (ExitCode.SUCCESS, fs1) ∧
      (∃ n, FS.size fs1 (options.dest_dir.join (FPath.rel f)) = some n ∧ 0 < n) ∧
      SymLink.run options f fs1 = Except.ok (ExitCode.SKIP, fs1) := by
  have hne : RESOURCES_PATH.join (FPath.rel f) ≠ options.dest_dir.join (FPath.rel f) := by
    intro h
    rw [h, hdst] at hres
    exact absurd hres (by simp)
  refine ⟨FS.set fs (options.dest_dir.join (FPath.rel f))
    (Entry.symlink (RESOURCES_PATH.join (FPath.rel f))), ?_, ?_, ?_⟩
  · simp [SymLink.run, FS.pexists_lookup_file hres, FS.pexists_lookup_none hdst,
      FS.symlink_to_none hdst, Except.map]
  · have hd1 : FS.lookup (FS.set fs (options.dest_dir.join (FPath.rel f))
        (Entry.symlink (RESOURCES_PATH.join (FPath.rel f))))
        (options.dest_dir.join (FPath.rel f)) =
        some (Entry.symlink (RESOURCES_PATH.join (FPath.rel f))) := by
      rw [FS.lookup_set]; simp
    have hs1 : FS.lookup (FS.set fs (options.dest_dir.join (FPath.rel f))
        (Entry.symlink (RESOURCES_PATH.join (FPath.rel f))))
        (RESOURCES_PATH.join (FPath.rel f)) = some (Entry.file c) := by
      rw [FS.lookup_set, if_neg (fun hcon => hne hcon.symm)]; exact hres
    exact ⟨c.length, FS.size_symlink_file hd1 hs1, hc⟩
  · have hd1 : FS.lookup (FS.set fs (options.dest_dir.join (FPath.rel f))
        (Entry.symlink (RESOURCES_PATH.join (FPath.rel f))))
        (options.dest_dir.join (FPath.rel f)) =
        some (Entry.symlink (RESOURCES_PATH.join (FPath.rel f))) := by
      rw [FS.lookup_set]; simp
    have hs1 : FS.lookup (FS.set fs (options.dest_dir.join (FPath.rel f))
        (Entry.symlink (RESOURCES_PATH.join (FPath.rel f))))
        (RESOURCES_PATH.join (FPath.rel f)) = some (Entry.file c) := by
      rw [FS.lookup_set, if_neg (fun hcon => hne hcon.symm)]; exact hres
    simp [SymLink.run, FS.pexists_lookup_file hs1,
      FS.pexists_symlink_file hd1 hs1, hov]

/-- C3: for every simple symlink installer (TMux, Vimperator, Gdb, Fvwm2)
run with overwrite false against an empty destination directory and a
non-empty bundled resource, the first run returns SUCCESS and leaves a
non-empty destination file, and an immediately following second run returns
SKIP leaving the filesystem (hence the destination file) unchanged. -/
theorem simple_symlink_installers_first_second (which : String → Bool)
    (options : Opts) (hov : options.overwrite = false) :
    (∀ fs c, FS.lookup fs (RESOURCES_PATH.join (FPath.rel ".tmux.conf")) =
        some (Entry.file c) → 0 < c.length →
      FS.lookup fs (options.dest_dir.join (FPath.rel ".tmux.conf")) = none →
      ∃ fs1, TMux.run which options fs = Except.ok (ExitCode.SUCCESS, fs1) ∧
        (∃ n, FS.size fs1 (options.dest_dir.join (FPath.rel ".tmux.conf")) =
          some n ∧ 0 < n) ∧
        TMux.run which options fs1 = Except.ok (ExitCode.SKIP, fs1)) ∧
    (∀ fs c, FS.lookup fs (RESOURCES_PATH.join (FPath.rel ".vimperatorrc")) =
        some (Entry.file c) → 0 < c.length →
      FS.lookup fs (options.dest_dir.join (FPath.rel ".vimperatorrc")) = none →
      ∃ fs1, Vimperator.run options fs = Except.ok (ExitCode.SUCCESS, fs1) ∧
        (∃ n, FS.size fs1 (options.dest_dir.join (FPath.rel ".vimperatorrc")) =
          some n ∧ 0 < n) ∧
        Vimperator.run options fs1 = Except.ok (ExitCode.SKIP, fs1)) ∧
    (∀ fs c, FS.lookup fs (RESOURCES_PATH.join (FPath.rel ".gdbinit")) =
        some (Entry.file c) → 0 < c.length →
      FS.lookup fs (options.dest_dir.join (FPath.rel ".gdbinit")) = none →
      ∃ fs1, Gdb.run which options fs = Except.ok (ExitCode.SUCCESS, fs1) ∧
        (∃ n, FS.size fs1 (options.dest_dir.join (FPath.rel ".gdbinit")) =
          some n ∧ 0 < n) ∧
        Gdb.run which options fs1 = Except.ok (ExitCode.SKIP, fs1)) ∧
    (∀ fs c, FS.lookup fs (RESOURCES_PATH.join (FPath.rel ".fvwm2rc")) =
        some (Entry.file c) → 0 < c.length →
      FS.lookup fs (options.dest_dir.join (FPath.rel ".fvwm2rc")) = none →
      ∃ fs1, Fvwm2.run which options fs = Except.ok (ExitCode.SUCCESS, fs1) ∧
        (∃ n, FS.size fs1 (options.dest_dir.join (FPath.rel ".fvwm2rc")) =
          some n ∧ 0 < n) ∧
        Fvwm2.run which options fs1 = Except.ok (ExitCode.SKIP, fs1)) := by
  refine ⟨?_, ?_, ?_, ?_⟩ <;>
    intro fs c h1 h2 h3 <;>
    simpa [TMux.run, Vimperator.run, Gdb.run, Fvwm2.run] using
      symLink_first_second options _ fs c hov h1 h2 h3

/-- Witness for C3 at a concrete one-file filesystem (the TMux conjunct). -/
theorem simple_symlink_installers_first_second_witness :
    ∃ fs1, TMux.run sampleWhich sampleOptF
        [(RESOURCES_PATH.join (FPath.rel ".tmux.conf"), some (Entry.file "a"))] =
          Except.ok (ExitCode.SUCCESS, fs1) ∧
      (∃ n, FS.size fs1 (sampleOptF.dest_dir.join (FPath.rel ".tmux.conf")) =
        some n ∧ 0 < n) ∧
      TMux.run sampleWhich sampleOptF fs1 = Except.ok (ExitCode.SKIP, fs1) :=
  (simple_symlink_installers_first_second sampleWhich sampleOptF (by decide)).1
    _ "a" (by decide) (by decide) (by decide)

/-! ### Claim C4 -/

/-- C4 counterexample: the Gdb installer configured with overwrite, started
in a filesystem state where the destination is a plain file, does not return
SUCCESS (nor any outcome): the symlink call raises `FileExistsError`. -/
theorem overwrite_run_not_always_success_cex :
    sampleOptT.overwrite = true ∧
    Gdb.run sampleWhich sampleOptT
      [(RESOURCES_PATH.join (FPath.rel ".gdbinit"), some (Entry.file "a")),
       (sampleDest.join (FPath.rel ".gdbinit"), some (Entry.file "old"))] =
      Except.error Err.fileExistsError := by decide

/-- Repeated placement runs: each of `n` consecutive runs returns `SUCCESS`
and leaves every placed destination file non-empty. -/
def alwaysSucceeds (step : FS → Except Err (ExitCode × FS))
    (dsts : List FPath) : Nat → FS → Prop
  | 0, _ => True
  | n + 1, fs => ∃ fs', step fs = Except.ok (ExitCode.SUCCESS, fs') ∧
      (∀ d, d ∈ dsts → ∃ k, FS.size fs' d = some k ∧ 0 < k) ∧
      alwaysSucceeds step dsts n fs'

/-- Induction driver: a step that, from any state satisfying an invariant,
returns `SUCCESS` with non-empty destinations and re-establishes the
invariant, succeeds any number of times. -/
theorem alwaysSucceeds_of_inv (Inv : FS → Prop)
    {step : FS → Except Err (ExitCode × FS)} {dsts : List FPath}
    (hstep : ∀ g, Inv g → ∃ fs', step g = Except.ok (ExitCode.SUCCESS, fs') ∧
      Inv fs' ∧ ∀ d, d ∈ dsts → ∃ k, FS.size fs' d = some k ∧ 0 < k) :
    ∀ (n : Nat) (fs : FS), Inv fs → alwaysSucceeds step dsts n fs := by
  intro n
  induction n with
  | zero => intro fs _; trivial
  | succ m ih =>
    intro fs hInv
    obtain ⟨fs', h1, h2, h3⟩ := hstep fs hInv
    exact ⟨fs', h1, h3, ih fs' h2⟩

/-- One overwrite-mode `SymLink.run` step from an invariant state (the
destination is absent or is the installed symlink) re-establishes the
invariant with outcome `SUCCESS`. -/
theorem symLink_overwrite_step (options : Opts) (f : String) (fs : FS)
    (c : String) (hov : options.overwrite = true)
    (hres : FS.lookup fs (RESOURCES_PATH.join (FPath.rel f)) = some (Entry.file c))
    (hdst : FS.lookup fs (options.dest_dir.join (FPath.rel f)) = none ∨
      FS.lookup fs (options.dest_dir.join (FPath.rel f)) =
        some (Entry.symlink (RESOURCES_PATH.join (FPath.rel f)))) :
    ∃ fs', SymLink.run options f fs = Except.ok (ExitCode.SUCCESS, fs') ∧
      FS.lookup fs' (RESOURCES_PATH.join (FPath.rel f)) = some (Entry.file c) ∧
      FS.lookup fs' (options.dest_dir.join (FPath.rel f)) =
        some (Entry.symlink (RESOURCES_PATH.join (FPath.rel f))) ∧
      FS.size fs' (options.dest_dir.join (FPath.rel f)) = some c.length := by
  rcases hdst with hd | hd
  · have hne : RESOURCES_PATH.join (FPath.rel f) ≠
        options.dest_dir.join (FPath.rel f) := by
      intro h; rw [h, hd] at hres; exact absurd hres (by simp)
    refine ⟨FS.set fs (options.dest_dir.join (FPath.rel f))
      (Entry.symlink (RESOURCES_PATH.join (FPath.rel f))), ?_, ?_, ?_, ?_⟩
    · simp [SymLink.run, FS.pexists_lookup_file hres, FS.pexists_lookup_none hd,
        FS.symlink_to_none hd, Except.map]
    · rw [FS.lookup_set, if_neg (fun hcon => hne hcon.symm)]; exact hres
    · rw [FS.lookup_set]; simp
    · have hd1 : FS.lookup (FS.set fs (options.dest_dir.join (FPath.rel f))
          (Entry.symlink (RESOURCES_PATH.join (FPath.rel f))))
          (options.dest_dir.join (FPath.rel f)) =
          some (Entry.symlink (RESOURCES_PATH.join (FPath.rel f))) := by
        rw [FS.lookup_set]; simp
      have hs1 : FS.lookup (FS.set fs (options.dest_dir.join (FPath.rel f))
          (Entry.symlink (RESOURCES_PATH.join (FPath.rel f))))
          (RESOURCES_PATH.join (FPath.rel f)) = some (Entry.file c) := by
        rw [FS.lookup_set, if_neg (fun hcon => hne hcon.symm)]; exact hres
      exact FS.size_symlink_file hd1 hs1
  · have hne : RESOURCES_PATH.join (FPath.rel f) ≠
        options.dest_dir.join (FPath.rel f) := by
      intro h; rw [h, hd] at hres; exact absurd hres (by simp)
    have hsl : FS.is_symlink fs (options.dest_dir.join (FPath.rel f)) = true := by
      simp [FS.is_symlink, hd]
    refine ⟨FS.set (FS.unlink fs (options.dest_dir.join (FPath.rel f)))
      (options.dest_dir.join (FPath.rel f))
      (Entry.symlink (RESOURCES_PATH.join (FPath.rel f))), ?_, ?_, ?_, ?_⟩
    · simp [SymLink.run, FS.pexists_lookup_file hres,
        FS.pexists_symlink_file hd hres, hov, hsl, Except.map,
        FS.symlink_to_none (FS.lookup_unlink_self fs _)]
    · rw [FS.lookup_set, if_neg (fun hcon => hne hcon.symm),
        FS.lookup_unlink, if_neg (fun hcon => hne hcon.symm)]
      exact hres
    · rw [FS.lookup_set]; simp
    · have hd1 : FS.lookup (FS.set (FS.unlink fs (options.dest_dir.join (FPath.rel f)))
          (options.dest_dir.join (FPath.rel f))
          (Entry.symlink (RESOURCES_PATH.join (FPath.rel f))))
          (options.dest_dir.join (FPath.rel f)) =
          some (Entry.symlink (RESOURCES_PATH.join (FPath.rel f))) := by
        rw [FS.lookup_set]; simp
      have hs1 : FS.lookup (FS.set (FS.unlink fs (options.dest_dir.join (FPath.rel f)))
          (options.dest_dir.join (FPath.rel f))
          (Entry.symlink (RESOURCES_PATH.join (FPath.rel f))))
          (RESOURCES_PATH.join (FPath.rel f)) = some (Entry.file c) := by
        rw [FS.lookup_set, if_neg (fun hcon => hne hcon.symm),
          FS.lookup_unlink, if_neg (fun hcon => hne hcon.symm)]
        exact hres
      exact FS.size_symlink_file hd1 hs1

/-- One overwrite-mode `CopyFile.run` step from an invariant state (the
destination is absent or the previously copied regular file) copies the
source over it, returning `SUCCESS` with the explicit resulting state. -/
theorem copyFile_overwrite_step (options : Opts) (sp dp : FPath) (fs : FS)
    (c : String) (hov : options.overwrite = true)
    (hsp : FS.lookup fs sp = some (Entry.file c))
    (hdst : FS.lookup fs (CopyFile.dst options dp) = none ∨
      FS.lookup fs (CopyFile.dst options dp) = some (Entry.file c)) :
    CopyFile.run options sp dp fs = Except.ok (ExitCode.SUCCESS,
      FS.set fs (CopyFile.dst options dp) (Entry.file c)) := by
  rcases hdst with hd | hd
  · simp [CopyFile.run, FS.pexists_lookup_file hsp, FS.pexists_lookup_none hd,
      FS.copy_eval_file_none hsp hd, Except.map]
  · have hsl : FS.is_symlink fs (CopyFile.dst options dp) = false := by
      simp [FS.is_symlink, hd]
    have hf : FS.is_file fs (CopyFile.dst options dp) = true := by
      simp only [FS.is_file, FS.fuel]
      rw [FS.resolve_lookup_file hd]
    simp [CopyFile.run, FS.pexists_lookup_file hsp, FS.pexists_lookup_file hd,
      hov, hsl, hf, FS.copy_eval_file_file hsp hd, Except.map]

/-- Absorption of the already-joined absolute destination passed as
`dst_path` by the installers (shared helper). -/
theorem CopyFile.dst_join_absolute {options : Opts}
    (habs : options.dest_dir.absolute = true) (t : String) :
    CopyFile.dst options (options.dest_dir.join (FPath.rel t)) =
      options.dest_dir.join (FPath.rel t) := by
  simp [CopyFile.dst, FPath.join, FPath.rel, habs]

/-- Lookup after creating directory entries along a list of paths. -/
theorem FS.lookup_foldl_set_dir (ps : List FPath) (fs : FS) (x : FPath) :
    FS.lookup (ps.foldl (fun f q => FS.set f q Entry.dir) fs) x =
      if x ∈ ps then some Entry.dir else FS.lookup fs x := by
  induction ps generalizing fs with
  | nil => simp
  | cons q ps ih =>
    simp only [List.foldl_cons]
    rw [ih]
    by_cases hx : x ∈ ps
    · rw [if_pos hx, if_pos (by simp [hx])]
    · rw [if_neg hx, FS.lookup_set]
      by_cases hq : q = x
      · rw [if_pos hq, if_pos (by simp [hq])]
      · rw [if_neg hq, if_neg (by
          simp only [List.mem_cons]
          rintro (hc | hc)
          · exact hq hc.symm
          · exact hx hc)]

/-- A path with at least one component is among the paths its
`mkdir(parents=True)` creates. -/
theorem FPath.self_mem_prefixPaths (p : FPath) (h : p.components ≠ []) :
    p ∈ p.prefixPaths := by
  have hlen : 0 < p.components.length := List.length_pos.mpr h
  unfold FPath.prefixPaths
  rw [List.mem_map]
  refine ⟨p.components.length - 1, by rw [List.mem_range]; omega, ?_⟩
  rw [Nat.sub_add_cancel (by omega), List.take_length]

/-- Evaluation of `mkdir(parents=True)` on an unoccupied path. -/
theorem FS.mkdir_p_none {fs : FS} {p : FPath} (h : FS.lookup fs p = none) :
    FS.mkdir_p fs p = Except.ok
      (p.prefixPaths.foldl (fun f q => FS.set f q Entry.dir) fs) := by
  simp [FS.mkdir_p, h]

/-- The stripped `.gitconfig` wrapper content the Git installer generates. -/
def gitconfigContent : String :=
  pyStrip (GIT_CONFIG_TEMPLATE (RESOURCES_PATH.join (FPath.rel ".gitconfig")).toStr)

/-- The `.vimrc` wrapper content the Vim installer generates. -/
def vimrcContent : String :=
  vimrcWrapper (RESOURCES_PATH.join (FPath.rel ".vimrc")).toStr

/-- One overwrite-mode `Git.run` step from an invariant state (destination
absent or already the generated wrapper) rewrites the wrapper, returning
`SUCCESS` with the explicit resulting state. -/
theorem git_overwrite_step (which : String → Bool) (options : Opts)
    (tmp : FPath) (fs : FS) (c0 : String)
    (hov : options.overwrite = true)
    (habs : options.dest_dir.absolute = true)
    (hres : FS.lookup fs (RESOURCES_PATH.join (FPath.rel ".gitconfig")) =
      some (Entry.file c0))
    (htmpne : tmp ≠ options.dest_dir.join (FPath.rel ".gitconfig"))
    (hdst : FS.lookup fs (options.dest_dir.join (FPath.rel ".gitconfig")) = none ∨
      FS.lookup fs (options.dest_dir.join (FPath.rel ".gitconfig")) =
        some (Entry.file gitconfigContent)) :
    Git.run which options tmp fs = Except.ok (ExitCode.SUCCESS,
      FS.unlink (FS.set (FS.set fs tmp (Entry.file gitconfigContent))
        (options.dest_dir.join (FPath.rel ".gitconfig"))
        (Entry.file gitconfigContent)) tmp) := by
  simp only [gitconfigContent] at hdst ⊢
  have hsrcE : FS.pexists fs (RESOURCES_PATH.join (FPath.rel ".gitconfig")) = true :=
    FS.pexists_lookup_file hres
  have h1 : FS.lookup (FS.set fs tmp (Entry.file (pyStrip (GIT_CONFIG_TEMPLATE
      (RESOURCES_PATH.join (FPath.rel ".gitconfig")).toStr)))) tmp =
      some (Entry.file (pyStrip (GIT_CONFIG_TEMPLATE
        (RESOURCES_PATH.join (FPath.rel ".gitconfig")).toStr))) := by
    rw [FS.lookup_set]; simp
  have hdstEq := CopyFile.dst_join_absolute habs ".gitconfig"
  have hd1 : FS.lookup (FS.set fs tmp (Entry.file (pyStrip (GIT_CONFIG_TEMPLATE
      (RESOURCES_PATH.join (FPath.rel ".gitconfig")).toStr))))
      (CopyFile.dst options (options.dest_dir.join (FPath.rel ".gitconfig"))) =
      none ∨
      FS.lookup (FS.set fs tmp (Entry.file (pyStrip (GIT_CONFIG_TEMPLATE
        (RESOURCES_PATH.join (FPath.rel ".gitconfig")).toStr))))
      (CopyFile.dst options (options.dest_dir.join (FPath.rel ".gitconfig"))) =
      some (Entry.file (pyStrip (GIT_CONFIG_TEMPLATE
        (RESOURCES_PATH.join (FPath.rel ".gitconfig")).toStr))) := by
    rw [hdstEq, FS.lookup_set, if_neg htmpne]
    exact hdst
  have hrun1 := copyFile_overwrite_step options tmp
    (options.dest_dir.join (FPath.rel ".gitconfig"))
    (FS.set fs tmp (Entry.file (pyStrip (GIT_CONFIG_TEMPLATE
      (RESOURCES_PATH.join (FPath.rel ".gitconfig")).toStr))))
    (pyStrip (GIT_CONFIG_TEMPLATE
      (RESOURCES_PATH.join (FPath.rel ".gitconfig")).toStr)) hov h1 hd1
  rw [hdstEq] at hrun1
  simp [Git.run, hsrcE, hrun1]

/-- Evaluation of the Zsh copy phase in overwrite mode from an invariant
state: both wrappers are (re)written and the phase returns `SUCCESS` with
the explicit resulting state. -/
theorem zsh_copies_overwrite_eval (options : Opts) (t1 t2 : FPath) (fs0 : FS)
    (a b : String)
    (hov : options.overwrite = true)
    (habs : options.dest_dir.absolute = true)
    (hR1 : FS.lookup fs0 (RESOURCES_PATH.join (FPath.rel ".zshrc")) =
      some (Entry.file a))
    (hR2 : FS.lookup fs0 (RESOURCES_PATH.join (FPath.rel ".zshenv")) =
      some (Entry.file b))
    (ht1 : FS.lookup fs0 t1 = none)
    (hD1 : FS.lookup fs0 (options.dest_dir.join (FPath.rel ".zshrc")) = none ∨
      FS.lookup fs0 (options.dest_dir.join (FPath.rel ".zshrc")) =
        some (Entry.file zshrcContent))
    (hD2 : FS.lookup fs0 (options.dest_dir.join (FPath.rel ".zshenv")) = none ∨
      FS.lookup fs0 (options.dest_dir.join (FPath.rel ".zshenv")) =
        some (Entry.file zshenvContent))
    (ht1D1 : t1 ≠ options.dest_dir.join (FPath.rel ".zshrc"))
    (ht1D2 : t1 ≠ options.dest_dir.join (FPath.rel ".zshenv"))
    (ht2D2 : t2 ≠ options.dest_dir.join (FPath.rel ".zshenv"))
    (hR2D1 : RESOURCES_PATH.join (FPath.rel ".zshenv") ≠
      options.dest_dir.join (FPath.rel ".zshrc")) :
    Zsh.copies options t1 t2 fs0 = Except.ok (ExitCode.SUCCESS,
      FS.unlink (FS.set (FS.set (FS.unlink (FS.set (FS.set fs0 t1
        (Entry.file zshrcContent))
        (options.dest_dir.join (FPath.rel ".zshrc")) (Entry.file zshrcContent))
        t1) t2 (Entry.file zshenvContent))
        (options.dest_dir.join (FPath.rel ".zshenv")) (Entry.file zshenvContent))
        t2) := by
  have hD1D2 : options.dest_dir.join (FPath.rel ".zshrc") ≠
      options.dest_dir.join (FPath.rel ".zshenv") :=
    FPath.join_rel_ne (by decide)
  have hR2t1 : RESOURCES_PATH.join (FPath.rel ".zshenv") ≠ t1 := by
    intro hc; rw [hc, ht1] at hR2; exact absurd hR2 (by simp)
  have hconf1E : FS.pexists fs0 (RESOURCES_PATH.join (FPath.rel ".zshrc")) = true :=
    FS.pexists_lookup_file hR1
  have h1 : FS.lookup (FS.set fs0 t1 (Entry.file zshrcContent)) t1 =
      some (Entry.file zshrcContent) := by rw [FS.lookup_set]; simp
  have hdstEq1 := CopyFile.dst_join_absolute habs ".zshrc"
  have hd1 : FS.lookup (FS.set fs0 t1 (Entry.file zshrcContent))
      (CopyFile.dst options (options.dest_dir.join (FPath.rel ".zshrc"))) =
      none ∨
      FS.lookup (FS.set fs0 t1 (Entry.file zshrcContent))
      (CopyFile.dst options (options.dest_dir.join (FPath.rel ".zshrc"))) =
      some (Entry.file zshrcContent) := by
    rw [hdstEq1, FS.lookup_set, if_neg ht1D1]
    exact hD1
  have hrun1 := copyFile_overwrite_step options t1
    (options.dest_dir.join (FPath.rel ".zshrc"))
    (FS.set fs0 t1 (Entry.file zshrcContent)) zshrcContent hov h1 hd1
  rw [hdstEq1] at hrun1
  have hconf2E : FS.pexists (FS.unlink (FS.set (FS.set fs0 t1
      (Entry.file zshrcContent))
      (options.dest_dir.join (FPath.rel ".zshrc")) (Entry.file zshrcContent)) t1)
      (RESOURCES_PATH.join (FPath.rel ".zshenv")) = true := by
    refine FS.pexists_lookup_file (c := b) ?_
    rw [FS.lookup_unlink, if_neg (fun hc => hR2t1 hc.symm),
      FS.lookup_set, if_neg (fun hc => hR2D1 hc.symm),
      FS.lookup_set, if_neg (fun hc => hR2t1 hc.symm)]
    exact hR2
  have h2 : FS.lookup (FS.set (FS.unlink (FS.set (FS.set fs0 t1
      (Entry.file zshrcContent))
      (options.dest_dir.join (FPath.rel ".zshrc")) (Entry.file zshrcContent)) t1)
      t2 (Entry.file zshenvContent)) t2 = some (Entry.file zshenvContent) := by
    rw [FS.lookup_set]; simp
  have hdstEq2 := CopyFile.dst_join_absolute habs ".zshenv"
  have hd2 : FS.lookup (FS.set (FS.unlink (FS.set (FS.set fs0 t1
      (Entry.file zshrcContent))
      (options.dest_dir.join (FPath.rel ".zshrc")) (Entry.file zshrcContent)) t1)
      t2 (Entry.file zshenvContent))
      (CopyFile.dst options (options.dest_dir.join (FPath.rel ".zshenv"))) =
      none ∨
      FS.lookup (FS.set (FS.unlink (FS.set (FS.set fs0 t1
      (Entry.file zshrcContent))
      (options.dest_dir.join (FPath.rel ".zshrc")) (Entry.file zshrcContent)) t1)
      t2 (Entry.file zshenvContent))
      (CopyFile.dst options (options.dest_dir.join (FPath.rel ".zshenv"))) =
      some (Entry.file zshenvContent) := by
    rw [hdstEq2, FS.lookup_set, if_neg ht2D2,
      FS.lookup_unlink, if_neg ht1D2,
      FS.lookup_set, if_neg hD1D2,
      FS.lookup_set, if_neg ht1D2]
    exact hD2
  have hrun2 := copyFile_overwrite_step options t2
    (options.dest_dir.join (FPath.rel ".zshenv"))
    (FS.set (FS.unlink (FS.set (FS.set fs0 t1 (Entry.file zshrcContent))
      (options.dest_dir.join (FPath.rel ".zshrc")) (Entry.file zshrcContent)) t1)
      t2 (Entry.file zshenvContent)) zshenvContent hov h2 hd2
  rw [hdstEq2] at hrun2
  simp [Zsh.copies, hconf1E, hrun1, hconf2E, hrun2]

/-- Bindings in the state a Zsh overwrite copy phase leaves behind. -/
theorem zsh_post_lookups (options : Opts) (t1 t2 : FPath) (g : FS)
    (a b : String)
    (hR1g : FS.lookup g (RESOURCES_PATH.join (FPath.rel ".zshrc")) =
      some (Entry.file a))
    (hR2g : FS.lookup g (RESOURCES_PATH.join (FPath.rel ".zshenv")) =
      some (Entry.file b))
    (hR1t1 : RESOURCES_PATH.join (FPath.rel ".zshrc") ≠ t1)
    (hR1t2 : RESOURCES_PATH.join (FPath.rel ".zshrc") ≠ t2)
    (hR2t1 : RESOURCES_PATH.join (FPath.rel ".zshenv") ≠ t1)
    (hR2t2 : RESOURCES_PATH.join (FPath.rel ".zshenv") ≠ t2)
    (ht1D1 : t1 ≠ options.dest_dir.join (FPath.rel ".zshrc"))
    (ht1D2 : t1 ≠ options.dest_dir.join (FPath.rel ".zshenv"))
    (ht2D1 : t2 ≠ options.dest_dir.join (FPath.rel ".zshrc"))
    (ht2D2 : t2 ≠ options.dest_dir.join (FPath.rel ".zshenv"))
    (hR1D1 : RESOURCES_PATH.join (FPath.rel ".zshrc") ≠
      options.dest_dir.join (FPath.rel ".zshrc"))
    (hR1D2 : RESOURCES_PATH.join (FPath.rel ".zshrc") ≠
      options.dest_dir.join (FPath.rel ".zshenv"))
    (hR2D1 : RESOURCES_PATH.join (FPath.rel ".zshenv") ≠
      options.dest_dir.join (FPath.rel ".zshrc"))
    (hR2D2 : RESOURCES_PATH.join (FPath.rel ".zshenv") ≠
      options.dest_dir.join (FPath.rel ".zshenv"))
    (hD1D2 : options.dest_dir.join (FPath.rel ".zshrc") ≠
      options.dest_dir.join (FPath.rel ".zshenv")) :
    FS.lookup (FS.unlink (FS.set (FS.set (FS.unlink (FS.set (FS.set g t1
        (Entry.file zshrcContent))
        (options.dest_dir.join (FPath.rel ".zshrc")) (Entry.file zshrcContent))
        t1) t2 (Entry.file zshenvContent))
        (options.dest_dir.join (FPath.rel ".zshenv")) (Entry.file zshenvContent))
        t2) (RESOURCES_PATH.join (FPath.rel ".zshrc")) = some (Entry.file a) ∧
    FS.lookup (FS.unlink (FS.set (FS.set (FS.unlink (FS.set (FS.set g t1
        (Entry.file zshrcContent))
        (options.dest_dir.join (FPath.rel ".zshrc")) (Entry.file zshrcContent))
        t1) t2 (Entry.file zshenvContent))
        (options.dest_dir.join (FPath.rel ".zshenv")) (Entry.file zshenvContent))
        t2) (RESOURCES_PATH.join (FPath.rel ".zshenv")) = some (Entry.file b) ∧
    FS.lookup (FS.unlink (FS.set (FS.set (FS.unlink (FS.set (FS.set g t1
        (Entry.file zshrcContent))
        (options.dest_dir.join (FPath.rel ".zshrc")) (Entry.file zshrcContent))
        t1) t2 (Entry.file zshenvContent))
        (options.dest_dir.join (FPath.rel ".zshenv")) (Entry.file zshenvContent))
        t2) t1 = none ∧
    FS.lookup (FS.unlink (FS.set (FS.set (FS.unlink (FS.set (FS.set g t1
        (Entry.file zshrcContent))
        (options.dest_dir.join (FPath.rel ".zshrc")) (Entry.file zshrcContent))
        t1) t2 (Entry.file zshenvContent))
        (options.dest_dir.join (FPath.rel ".zshenv")) (Entry.file zshenvContent))
        t2) t2 = none ∧
    FS.lookup (FS.unlink (FS.set (FS.set (FS.unlink (FS.set (FS.set g t1
        (Entry.file zshrcContent))
        (options.dest_dir.join (FPath.rel ".zshrc")) (Entry.file zshrcContent))
        t1) t2 (Entry.file zshenvContent))
        (options.dest_dir.join (FPath.rel ".zshenv")) (Entry.file zshenvContent))
        t2) (options.dest_dir.join (FPath.rel ".zshrc")) =
      some (Entry.file zshrcContent) ∧
    FS.lookup (FS.unlink (FS.set (FS.set (FS.unlink (FS.set (FS.set g t1
        (Entry.file zshrcContent))
        (options.dest_dir.join (FPath.rel ".zshrc")) (Entry.file zshrcContent))
        t1) t2 (Entry.file zshenvContent))
        (options.dest_dir.join (FPath.rel ".zshenv")) (Entry.file zshenvContent))
        t2) (options.dest_dir.join (FPath.rel ".zshenv")) =
      some (Entry.file zshenvContent) := by
  refine ⟨?_, ?_, ?_, ?_, ?_, ?_⟩
  · rw [FS.lookup_unlink, if_neg (fun hc => hR1t2 hc.symm),
      FS.lookup_set, if_neg (fun hc => hR1D2 hc.symm),
      FS.lookup_set, if_neg (fun hc => hR1t2 hc.symm),
      FS.lookup_unlink, if_neg (fun hc => hR1t1 hc.symm),
      FS.lookup_set, if_neg (fun hc => hR1D1 hc.symm),
      FS.lookup_set, if_neg (fun hc => hR1t1 hc.symm)]
    exact hR1g
  · rw [FS.lookup_unlink, if_neg (fun hc => hR2t2 hc.symm),
      FS.lookup_set, if_neg (fun hc => hR2D2 hc.symm),
      FS.lookup_set, if_neg (fun hc => hR2t2 hc.symm),
      FS.lookup_unlink, if_neg (fun hc => hR2t1 hc.symm),
      FS.lookup_set, if_neg (fun hc => hR2D1 hc.symm),
      FS.lookup_set, if_neg (fun hc => hR2t1 hc.symm)]
    exact hR2g
  · by_cases hq : t2 = t1
    · rw [FS.lookup_unlink, if_pos hq]
    · rw [FS.lookup_unlink, if_neg hq,
        FS.lookup_set, if_neg (fun hc => ht1D2 hc.symm),
        FS.lookup_set, if_neg hq,
        FS.lookup_unlink, if_pos rfl]
  · rw [FS.lookup_unlink, if_pos rfl]
  · rw [FS.lookup_unlink, if_neg ht2D1,
      FS.lookup_set, if_neg (fun hc => hD1D2 hc.symm),
      FS.lookup_set, if_neg ht2D1,
      FS.lookup_unlink, if_neg ht1D1,
      FS.lookup_set, if_pos rfl]
  · rw [FS.lookup_unlink, if_neg ht2D2,
      FS.lookup_set, if_pos rfl]

/-- One overwrite-mode Zsh run from an invariant state (each wrapper path
absent or already holding the generated wrapper) rewrites both wrappers and
returns `SUCCESS`, re-establishing the invariant. -/
theorem zsh_overwrite_step (which : String → Bool) (options : Opts)
    (t1 t2 : FPath) (fs : FS) (a b : String)
    (hov : options.overwrite = true)
    (habs : options.dest_dir.absolute = true)
    (hR1 : FS.lookup fs (RESOURCES_PATH.join (FPath.rel ".zshrc")) =
      some (Entry.file a))
    (hR2 : FS.lookup fs (RESOURCES_PATH.join (FPath.rel ".zshenv")) =
      some (Entry.file b))
    (ht1 : FS.lookup fs t1 = none) (ht2 : FS.lookup fs t2 = none)
    (hD1 : FS.lookup fs (options.dest_dir.join (FPath.rel ".zshrc")) = none ∨
      FS.lookup fs (options.dest_dir.join (FPath.rel ".zshrc")) =
        some (Entry.file zshrcContent))
    (hD2 : FS.lookup fs (options.dest_dir.join (FPath.rel ".zshenv")) = none ∨
      FS.lookup fs (options.dest_dir.join (FPath.rel ".zshenv")) =
        some (Entry.file zshenvContent))
    (ht1D1 : t1 ≠ options.dest_dir.join (FPath.rel ".zshrc"))
    (ht1D2 : t1 ≠ options.dest_dir.join (FPath.rel ".zshenv"))
    (ht2D1 : t2 ≠ options.dest_dir.join (FPath.rel ".zshrc"))
    (ht2D2 : t2 ≠ options.dest_dir.join (FPath.rel ".zshenv"))
    (hR1D1 : RESOURCES_PATH.join (FPath.rel ".zshrc") ≠
      options.dest_dir.join (FPath.rel ".zshrc"))
    (hR1D2 : RESOURCES_PATH.join (FPath.rel ".zshrc") ≠
      options.dest_dir.join (FPath.rel ".zshenv"))
    (hR2D1 : RESOURCES_PATH.join (FPath.rel ".zshenv") ≠
      options.dest_dir.join (FPath.rel ".zshrc"))
    (hR2D2 : RESOURCES_PATH.join (FPath.rel ".zshenv") ≠
      options.dest_dir.join (FPath.rel ".zshenv"))
    (ht1CP : t1 ≠ options.dest_dir.join (FPath.rel ".zsh-completions")) :
    ∃ fs', (Zsh.run which options t1 t2 fs).1 =
        Except.ok (ExitCode.SUCCESS, fs') ∧
      FS.lookup fs' (RESOURCES_PATH.join (FPath.rel ".zshrc")) =
        some (Entry.file a) ∧
      FS.lookup fs' (RESOURCES_PATH.join (FPath.rel ".zshenv")) =
        some (Entry.file b) ∧
      FS.lookup fs' t1 = none ∧ FS.lookup fs' t2 = none ∧
      FS.lookup fs' (options.dest_dir.join (FPath.rel ".zshrc")) =
        some (Entry.file zshrcContent) ∧
      FS.lookup fs' (options.dest_dir.join (FPath.rel ".zshenv")) =
        some (Entry.file zshenvContent) := by
  have hR1t1 : RESOURCES_PATH.join (FPath.rel ".zshrc") ≠ t1 := by
    intro hc; rw [hc, ht1] at hR1; exact absurd hR1 (by simp)
  have hR1t2 : RESOURCES_PATH.join (FPath.rel ".zshrc") ≠ t2 := by
    intro hc; rw [hc, ht2] at hR1; exact absurd hR1 (by simp)
  have hR2t1 : RESOURCES_PATH.join (FPath.rel ".zshenv") ≠ t1 := by
    intro hc; rw [hc, ht1] at hR2; exact absurd hR2 (by simp)
  have hR2t2 : RESOURCES_PATH.join (FPath.rel ".zshenv") ≠ t2 := by
    intro hc; rw [hc, ht2] at hR2; exact absurd hR2 (by simp)
  have hD1D2 : options.dest_dir.join (FPath.rel ".zshrc") ≠
      options.dest_dir.join (FPath.rel ".zshenv") :=
    FPath.join_rel_ne (by decide)
  by_cases hcp : FS.pexists fs
      (options.dest_dir.join (FPath.rel ".zsh-completions")) = true
  · have heval := zsh_copies_overwrite_eval options t1 t2 fs a b hov habs
      hR1 hR2 ht1 hD1 hD2 ht1D1 ht1D2 ht2D2 hR2D1
    refine ⟨FS.unlink (FS.set (FS.set (FS.unlink (FS.set (FS.set fs t1
        (Entry.file zshrcContent))
        (options.dest_dir.join (FPath.rel ".zshrc")) (Entry.file zshrcContent))
        t1) t2 (Entry.file zshenvContent))
        (options.dest_dir.join (FPath.rel ".zshenv")) (Entry.file zshenvContent))
        t2, by simp [Zsh.run, hcp, heval], ?_⟩
    exact zsh_post_lookups options t1 t2 fs a b hR1 hR2 hR1t1 hR1t2 hR2t1
      hR2t2 ht1D1 ht1D2 ht2D1 ht2D2 hR1D1 hR1D2 hR2D1 hR2D2 hD1D2
  · rw [Bool.not_eq_true] at hcp
    have hR1CP : RESOURCES_PATH.join (FPath.rel ".zshrc") ≠
        options.dest_dir.join (FPath.rel ".zsh-completions") := by
      intro hc
      rw [hc] at hR1
      have h := FS.pexists_lookup_file hR1
      rw [h] at hcp
      exact absurd hcp (by simp)
    have hR2CP : RESOURCES_PATH.join (FPath.rel ".zshenv") ≠
        options.dest_dir.join (FPath.rel ".zsh-completions") := by
      intro hc
      rw [hc] at hR2
      have h := FS.pexists_lookup_file hR2
      rw [h] at hcp
      exact absurd hcp (by simp)
    have hD1CP : options.dest_dir.join (FPath.rel ".zshrc") ≠
        options.dest_dir.join (FPath.rel ".zsh-completions") :=
      FPath.join_rel_ne (by decide)
    have hD2CP : options.dest_dir.join (FPath.rel ".zshenv") ≠
        options.dest_dir.join (FPath.rel ".zsh-completions") :=
      FPath.join_rel_ne (by decide)
    have hR1c : FS.lookup (FS.cloneRepo fs ZSH_COMPLETIONS_URL
        (options.dest_dir.join (FPath.rel ".zsh-completions")))
        (RESOURCES_PATH.join (FPath.rel ".zshrc")) = some (Entry.file a) := by
      rw [FS.cloneRepo, FS.lookup_set, if_neg (fun hc => hR1CP hc.symm)]
      exact hR1
    have hR2c : FS.lookup (FS.cloneRepo fs ZSH_COMPLETIONS_URL
        (options.dest_dir.join (FPath.rel ".zsh-completions")))
        (RESOURCES_PATH.join (FPath.rel ".zshenv")) = some (Entry.file b) := by
      rw [FS.cloneRepo, FS.lookup_set, if_neg (fun hc => hR2CP hc.symm)]
      exact hR2
    have ht1c : FS.lookup (FS.cloneRepo fs ZSH_COMPLETIONS_URL
        (options.dest_dir.join (FPath.rel ".zsh-completions"))) t1 = none := by
      rw [FS.cloneRepo, FS.lookup_set, if_neg (fun hc => ht1CP hc.symm)]
      exact ht1
    have hD1c : FS.lookup (FS.cloneRepo fs ZSH_COMPLETIONS_URL
        (options.dest_dir.join (FPath.rel ".zsh-completions")))
        (options.dest_dir.join (FPath.rel ".zshrc")) = none ∨
        FS.lookup (FS.cloneRepo fs ZSH_COMPLETIONS_URL
        (options.dest_dir.join (FPath.rel ".zsh-completions")))
        (options.dest_dir.join (FPath.rel ".zshrc")) =
          some (Entry.file zshrcContent) := by
      rw [FS.cloneRepo, FS.lookup_set, if_neg (fun hc => hD1CP hc.symm)]
      exact hD1
    have hD2c : FS.lookup (FS.cloneRepo fs ZSH_COMPLETIONS_URL
        (options.dest_dir.join (FPath.rel ".zsh-completions")))
        (options.dest_dir.join (FPath.rel ".zshenv")) = none ∨
        FS.lookup (FS.cloneRepo fs ZSH_COMPLETIONS_URL
        (options.dest_dir.join (FPath.rel ".zsh-completions")))
        (options.dest_dir.join (FPath.rel ".zshenv")) =
          some (Entry.file zshenvContent) := by
      rw [FS.cloneRepo, FS.lookup_set, if_neg (fun hc => hD2CP hc.symm)]
      exact hD2
    have heval := zsh_copies_overwrite_eval options t1 t2
      (FS.cloneRepo fs ZSH_COMPLETIONS_URL
        (options.dest_dir.join (FPath.rel ".zsh-completions"))) a b hov habs
      hR1c hR2c ht1c hD1c hD2c ht1D1 ht1D2 ht2D2 hR2D1
    refine ⟨FS.unlink (FS.set (FS.set (FS.unlink (FS.set (FS.set
        (FS.cloneRepo fs ZSH_COMPLETIONS_URL
          (options.dest_dir.join (FPath.rel ".zsh-completions"))) t1
        (Entry.file zshrcContent))
        (options.dest_dir.join (FPath.rel ".zshrc")) (Entry.file zshrcContent))
        t1) t2 (Entry.file zshenvContent))
        (options.dest_dir.join (FPath.rel ".zshenv")) (Entry.file zshenvContent))
        t2, by simp [Zsh.run, hcp, heval], ?_⟩
    exact zsh_post_lookups options t1 t2
      (FS.cloneRepo fs ZSH_COMPLETIONS_URL
        (options.dest_dir.join (FPath.rel ".zsh-completions"))) a b hR1c hR2c
      hR1t1 hR1t2 hR2t1 hR2t2 ht1D1 ht1D2 ht2D1 ht2D2 hR1D1 hR1D2 hR2D1
      hR2D2 hD1D2

/-- Facts about the download and wrapper phases of an overwrite-mode Vim
run, after the directory phase produced `fs0`: the plug.vim write and the
`.vimrc` installation succeed, with the explicit resulting bindings. -/
theorem vim_postmkdir_facts (options : Opts) (tmp : FPath)
    (response : Nat × String) (fs0 : FS) (a : String)
    (hov : options.overwrite = true)
    (habs : options.dest_dir.absolute = true)
    (hRV0 : FS.lookup fs0 (RESOURCES_PATH.join (FPath.rel ".vimrc")) =
      some (Entry.file a))
    (htmp0 : FS.lookup fs0 tmp = none)
    (hplug0 : FS.lookup fs0 (((options.dest_dir.join (FPath.rel ".vim")).join
        (FPath.rel "autoload")).join (FPath.rel "plug.vim")) = none ∨
      FS.lookup fs0 (((options.dest_dir.join (FPath.rel ".vim")).join
        (FPath.rel "autoload")).join (FPath.rel "plug.vim")) =
        some (Entry.file response.2))
    (hDV0 : FS.lookup fs0 (options.dest_dir.join (FPath.rel ".vimrc")) = none ∨
      FS.lookup fs0 (options.dest_dir.join (FPath.rel ".vimrc")) =
        some (Entry.file vimrcContent))
    (hdot0 : FS.lookup fs0 ((options.dest_dir.join (FPath.rel ".vim")).join
      (FPath.rel "autoload")) = some Entry.dir)
    (hRVplug : RESOURCES_PATH.join (FPath.rel ".vimrc") ≠
      ((options.dest_dir.join (FPath.rel ".vim")).join
        (FPath.rel "autoload")).join (FPath.rel "plug.vim"))
    (hRVDV : RESOURCES_PATH.join (FPath.rel ".vimrc") ≠
      options.dest_dir.join (FPath.rel ".vimrc"))
    (htmpDV : tmp ≠ options.dest_dir.join (FPath.rel ".vimrc"))
    (htmpplug : tmp ≠ ((options.dest_dir.join (FPath.rel ".vim")).join
      (FPath.rel "autoload")).join (FPath.rel "plug.vim"))
    (hDVplug : options.dest_dir.join (FPath.rel ".vimrc") ≠
      ((options.dest_dir.join (FPath.rel ".vim")).join
        (FPath.rel "autoload")).join (FPath.rel "plug.vim"))
    (htmpdot : tmp ≠ (options.dest_dir.join (FPath.rel ".vim")).join
      (FPath.rel "autoload"))
    (hDVdot : options.dest_dir.join (FPath.rel ".vimrc") ≠
      (options.dest_dir.join (FPath.rel ".vim")).join (FPath.rel "autoload"))
    (hplugdot : ((options.dest_dir.join (FPath.rel ".vim")).join
        (FPath.rel "autoload")).join (FPath.rel "plug.vim") ≠
      (options.dest_dir.join (FPath.rel ".vim")).join (FPath.rel "autoload")) :
    FS.writeFile fs0 (((options.dest_dir.join (FPath.rel ".vim")).join
        (FPath.rel "autoload")).join (FPath.rel "plug.vim")) response.2 =
      Except.ok (FS.set fs0 (((options.dest_dir.join (FPath.rel ".vim")).join
        (FPath.rel "autoload")).join (FPath.rel "plug.vim"))
        (Entry.file response.2)) ∧
    Vim.installVimrc options tmp (FS.set fs0
        (((options.dest_dir.join (FPath.rel ".vim")).join
          (FPath.rel "autoload")).join (FPath.rel "plug.vim"))
        (Entry.file response.2)) =
      Except.ok (ExitCode.SUCCESS,
        FS.unlink (FS.set (FS.set (FS.set fs0
          (((options.dest_dir.join (FPath.rel ".vim")).join
            (FPath.rel "autoload")).join (FPath.rel "plug.vim"))
          (Entry.file response.2)) tmp (Entry.file vimrcContent))
          (options.dest_dir.join (FPath.rel ".vimrc"))
          (Entry.file vimrcContent)) tmp) ∧
    FS.lookup (FS.unlink (FS.set (FS.set (FS.set fs0
        (((options.dest_dir.join (FPath.rel ".vim")).join
          (FPath.rel "autoload")).join (FPath.rel "plug.vim"))
        (Entry.file response.2)) tmp (Entry.file vimrcContent))
        (options.dest_dir.join (FPath.rel ".vimrc"))
        (Entry.file vimrcContent)) tmp)
      (RESOURCES_PATH.join (FPath.rel ".vimrc")) = some (Entry.file a) ∧
    FS.lookup (FS.unlink (FS.set (FS.set (FS.set fs0
        (((options.dest_dir.join (FPath.rel ".vim")).join
          (FPath.rel "autoload")).join (FPath.rel "plug.vim"))
        (Entry.file response.2)) tmp (Entry.file vimrcContent))
        (options.dest_dir.join (FPath.rel ".vimrc"))
        (Entry.file vimrcContent)) tmp) tmp = none ∧
    FS.lookup (FS.unlink (FS.set (FS.set (FS.set fs0
        (((options.dest_dir.join (FPath.rel ".vim")).join
          (FPath.rel "autoload")).join (FPath.rel "plug.vim"))
        (Entry.file response.2)) tmp (Entry.file vimrcContent))
        (options.dest_dir.join (FPath.rel ".vimrc"))
        (Entry.file vimrcContent)) tmp)
      (((options.dest_dir.join (FPath.rel ".vim")).join
        (FPath.rel "autoload")).join (FPath.rel "plug.vim")) =
      some (Entry.file response.2) ∧
    FS.lookup (FS.unlink (FS.set (FS.set (FS.set fs0
        (((options.dest_dir.join (FPath.rel ".vim")).join
          (FPath.rel "autoload")).join (FPath.rel "plug.vim"))
        (Entry.file response.2)) tmp (Entry.file vimrcContent))
        (options.dest_dir.join (FPath.rel ".vimrc"))
        (Entry.file vimrcContent)) tmp)
      (options.dest_dir.join (FPath.rel ".vimrc")) =
      some (Entry.file vimrcContent) ∧
    FS.lookup (FS.unlink (FS.set (FS.set (FS.set fs0
        (((options.dest_dir.join (FPath.rel ".vim")).join
          (FPath.rel "autoload")).join (FPath.rel "plug.vim"))
        (Entry.file response.2)) tmp (Entry.file vimrcContent))
        (options.dest_dir.join (FPath.rel ".vimrc"))
        (Entry.file vimrcContent)) tmp)
      ((options.dest_dir.join (FPath.rel ".vim")).join (FPath.rel "autoload")) =
      some Entry.dir := by
  have hRVtmp : RESOURCES_PATH.join (FPath.rel ".vimrc") ≠ tmp := by
    intro hc; rw [hc, htmp0] at hRV0; exact absurd hRV0 (by simp)
  have hwf : FS.writeFile fs0 (((options.dest_dir.join (FPath.rel ".vim")).join
      (FPath.rel "autoload")).join (FPath.rel "plug.vim")) response.2 =
      Except.ok (FS.set fs0 (((options.dest_dir.join (FPath.rel ".vim")).join
        (FPath.rel "autoload")).join (FPath.rel "plug.vim"))
        (Entry.file response.2)) := by
    rcases hplug0 with h | h
    · exact FS.writeFile_lookup_none h
    · exact FS.writeFile_lookup_file h
  have hRV2 : FS.lookup (FS.set fs0
      (((options.dest_dir.join (FPath.rel ".vim")).join
        (FPath.rel "autoload")).join (FPath.rel "plug.vim"))
      (Entry.file response.2))
      (RESOURCES_PATH.join (FPath.rel ".vimrc")) = some (Entry.file a) := by
    rw [FS.lookup_set, if_neg (fun hc => hRVplug hc.symm)]
    exact hRV0
  have hconf : FS.pexists (FS.set fs0
      (((options.dest_dir.join (FPath.rel ".vim")).join
        (FPath.rel "autoload")).join (FPath.rel "plug.vim"))
      (Entry.file response.2))
      (RESOURCES_PATH.join (FPath.rel ".vimrc")) = true :=
    FS.pexists_lookup_file hRV2
  have h1 : FS.lookup (FS.set (FS.set fs0
      (((options.dest_dir.join (FPath.rel ".vim")).join
        (FPath.rel "autoload")).join (FPath.rel "plug.vim"))
      (Entry.file response.2)) tmp (Entry.file vimrcContent)) tmp =
      some (Entry.file vimrcContent) := by
    rw [FS.lookup_set]; simp
  have hdstEq := CopyFile.dst_join_absolute habs ".vimrc"
  have hd1 : FS.lookup (FS.set (FS.set fs0
      (((options.dest_dir.join (FPath.rel ".vim")).join
        (FPath.rel "autoload")).join (FPath.rel "plug.vim"))
      (Entry.file response.2)) tmp (Entry.file vimrcContent))
      (CopyFile.dst options (options.dest_dir.join (FPath.rel ".vimrc"))) =
      none ∨
      FS.lookup (FS.set (FS.set fs0
      (((options.dest_dir.join (FPath.rel ".vim")).join
        (FPath.rel "autoload")).join (FPath.rel "plug.vim"))
      (Entry.file response.2)) tmp (Entry.file vimrcContent))
      (CopyFile.dst options (options.dest_dir.join (FPath.rel ".vimrc"))) =
      some (Entry.file vimrcContent) := by
    rw [hdstEq, FS.lookup_set, if_neg htmpDV,
      FS.lookup_set, if_neg (fun hc => hDVplug hc.symm)]
    exact hDV0
  have hrun1 := copyFile_overwrite_step options tmp
    (options.dest_dir.join (FPath.rel ".vimrc"))
    (FS.set (FS.set fs0 (((options.dest_dir.join (FPath.rel ".vim")).join
      (FPath.rel "autoload")).join (FPath.rel "plug.vim"))
      (Entry.file response.2)) tmp (Entry.file vimrcContent))
    vimrcContent hov h1 hd1
  rw [hdstEq] at hrun1
  refine ⟨hwf, ?_, ?_, ?_, ?_, ?_, ?_⟩
  · simp only [vimrcContent] at hrun1 ⊢
    simp [Vim.installVimrc, hconf, hrun1]
  · rw [FS.lookup_unlink, if_neg (fun hc => hRVtmp hc.symm),
      FS.lookup_set, if_neg (fun hc => hRVDV hc.symm),
      FS.lookup_set, if_neg (fun hc => hRVtmp hc.symm),
      FS.lookup_set, if_neg (fun hc => hRVplug hc.symm)]
    exact hRV0
  · rw [FS.lookup_unlink, if_pos rfl]
  · rw [FS.lookup_unlink, if_neg htmpplug,
      FS.lookup_set, if_neg hDVplug,
      FS.lookup_set, if_neg htmpplug,
      FS.lookup_set, if_pos rfl]
  · rw [FS.lookup_unlink, if_neg htmpDV,
      FS.lookup_set, if_pos rfl]
  · rw [FS.lookup_unlink, if_neg htmpdot,
      FS.lookup_set, if_neg hDVdot,
      FS.lookup_set, if_neg htmpdot,
      FS.lookup_set, if_neg hplugdot]
    exact hdot0

/-- One overwrite-mode Vim run from an invariant state (autoload directory
present or absent, plug.vim and `.vimrc` absent or already installed)
re-downloads plug.vim, rewrites the wrapper and returns `SUCCESS`,
re-establishing the invariant. -/
theorem vim_overwrite_step (which : String → Bool) (options : Opts)
    (response : Nat × String) (tmp : FPath) (fs : FS) (a : String)
    (hov : options.overwrite = true)
    (habs : options.dest_dir.absolute = true)
    (hst : response.1 = 200)
    (hRV : FS.lookup fs (RESOURCES_PATH.join (FPath.rel ".vimrc")) =
      some (Entry.file a))
    (htmp : FS.lookup fs tmp = none)
    (hplug : FS.lookup fs (((options.dest_dir.join (FPath.rel ".vim")).join
        (FPath.rel "autoload")).join (FPath.rel "plug.vim")) = none ∨
      FS.lookup fs (((options.dest_dir.join (FPath.rel ".vim")).join
        (FPath.rel "autoload")).join (FPath.rel "plug.vim")) =
        some (Entry.file response.2))
    (hDV : FS.lookup fs (options.dest_dir.join (FPath.rel ".vimrc")) = none ∨
      FS.lookup fs (options.dest_dir.join (FPath.rel ".vimrc")) =
        some (Entry.file vimrcContent))
    (hdot : FS.lookup fs ((options.dest_dir.join (FPath.rel ".vim")).join
        (FPath.rel "autoload")) = some Entry.dir ∨
      FS.lookup fs ((options.dest_dir.join (FPath.rel ".vim")).join
        (FPath.rel "autoload")) = none)
    (hRVplug : RESOURCES_PATH.join (FPath.rel ".vimrc") ≠
      ((options.dest_dir.join (FPath.rel ".vim")).join
        (FPath.rel "autoload")).join (FPath.rel "plug.vim"))
    (hRVDV : RESOURCES_PATH.join (FPath.rel ".vimrc") ≠
      options.dest_dir.join (FPath.rel ".vimrc"))
    (htmpDV : tmp ≠ options.dest_dir.join (FPath.rel ".vimrc"))
    (htmpplug : tmp ≠ ((options.dest_dir.join (FPath.rel ".vim")).join
      (FPath.rel "autoload")).join (FPath.rel "plug.vim"))
    (hDVplug : options.dest_dir.join (FPath.rel ".vimrc") ≠
      ((options.dest_dir.join (FPath.rel ".vim")).join
        (FPath.rel "autoload")).join (FPath.rel "plug.vim"))
    (hRVpre : RESOURCES_PATH.join (FPath.rel ".vimrc") ∉
      FPath.prefixPaths ((options.dest_dir.join (FPath.rel ".vim")).join
        (FPath.rel "autoload")))
    (htmppre : tmp ∉ FPath.prefixPaths
      ((options.dest_dir.join (FPath.rel ".vim")).join (FPath.rel "autoload")))
    (hDVpre : options.dest_dir.join (FPath.rel ".vimrc") ∉
      FPath.prefixPaths ((options.dest_dir.join (FPath.rel ".vim")).join
        (FPath.rel "autoload")))
    (hplugpre : ((options.dest_dir.join (FPath.rel ".vim")).join
        (FPath.rel "autoload")).join (FPath.rel "plug.vim") ∉
      FPath.prefixPaths ((options.dest_dir.join (FPath.rel ".vim")).join
        (FPath.rel "autoload"))) :
    ∃ fs', (Vim.run which options response tmp fs).1 =
        Except.ok (ExitCode.SUCCESS, fs') ∧
      FS.lookup fs' (RESOURCES_PATH.join (FPath.rel ".vimrc")) =
        some (Entry.file a) ∧
      FS.lookup fs' tmp = none ∧
      FS.lookup fs' (((options.dest_dir.join (FPath.rel ".vim")).join
        (FPath.rel "autoload")).join (FPath.rel "plug.vim")) =
        some (Entry.file response.2) ∧
      FS.lookup fs' (options.dest_dir.join (FPath.rel ".vimrc")) =
        some (Entry.file vimrcContent) ∧
      FS.lookup fs' ((options.dest_dir.join (FPath.rel ".vim")).join
        (FPath.rel "autoload")) = some Entry.dir := by
  have hself := FPath.self_mem_prefixPaths
    ((options.dest_dir.join (FPath.rel ".vim")).join (FPath.rel "autoload"))
    (by simp [FPath.join, FPath.rel])
  have htmpdot : tmp ≠ (options.dest_dir.join (FPath.rel ".vim")).join
      (FPath.rel "autoload") := by
    intro hc; exact htmppre (by rw [hc]; exact hself)
  have hDVdot : options.dest_dir.join (FPath.rel ".vimrc") ≠
      (options.dest_dir.join (FPath.rel ".vim")).join (FPath.rel "autoload") := by
    intro hc; exact hDVpre (by rw [hc]; exact hself)
  have hplugdot : ((options.dest_dir.join (FPath.rel ".vim")).join
      (FPath.rel "autoload")).join (FPath.rel "plug.vim") ≠
      (options.dest_dir.join (FPath.rel ".vim")).join (FPath.rel "autoload") := by
    intro hc; exact hplugpre (by rw [hc]; exact hself)
  rcases hdot with hdir | hnone
  · have hpex : FS.pexists fs ((options.dest_dir.join (FPath.rel ".vim")).join
        (FPath.rel "autoload")) = true := FS.pexists_lookup_dir hdir
    have hmk : Vim.mkdirPhase options fs = Except.ok fs := by
      simp [Vim.mkdirPhase, hpex]
    have facts := vim_postmkdir_facts options tmp response fs a hov habs
      hRV htmp hplug hDV hdir hRVplug hRVDV htmpDV htmpplug hDVplug
      htmpdot hDVdot hplugdot
    exact ⟨FS.unlink (FS.set (FS.set (FS.set fs
        (((options.dest_dir.join (FPath.rel ".vim")).join
          (FPath.rel "autoload")).join (FPath.rel "plug.vim"))
        (Entry.file response.2)) tmp (Entry.file vimrcContent))
        (options.dest_dir.join (FPath.rel ".vimrc"))
        (Entry.file vimrcContent)) tmp,
      by simp [Vim.run, hmk, hov, hst, facts.1, facts.2.1],
      facts.2.2.1, facts.2.2.2.1, facts.2.2.2.2.1, facts.2.2.2.2.2.1,
      facts.2.2.2.2.2.2⟩
  · have hpexF : FS.pexists fs ((options.dest_dir.join (FPath.rel ".vim")).join
        (FPath.rel "autoload")) = false := FS.pexists_lookup_none hnone
    have hmk : Vim.mkdirPhase options fs = Except.ok
        ((FPath.prefixPaths ((options.dest_dir.join (FPath.rel ".vim")).join
          (FPath.rel "autoload"))).foldl
          (fun f q => FS.set f q Entry.dir) fs) := by
      simp [Vim.mkdirPhase, hpexF, FS.mkdir_p_none hnone]
    have hRV0 : FS.lookup ((FPath.prefixPaths
        ((options.dest_dir.join (FPath.rel ".vim")).join
          (FPath.rel "autoload"))).foldl
        (fun f q => FS.set f q Entry.dir) fs)
        (RESOURCES_PATH.join (FPath.rel ".vimrc")) = some (Entry.file a) := by
      rw [FS.lookup_foldl_set_dir, if_neg hRVpre]
      exact hRV
    have htmp0 : FS.lookup ((FPath.prefixPaths
        ((options.dest_dir.join (FPath.rel ".vim")).join
          (FPath.rel "autoload"))).foldl
        (fun f q => FS.set f q Entry.dir) fs) tmp = none := by
      rw [FS.lookup_foldl_set_dir, if_neg htmppre]
      exact htmp
    have hplug0 : FS.lookup ((FPath.prefixPaths
        ((options.dest_dir.join (FPath.rel ".vim")).join
          (FPath.rel "autoload"))).foldl
        (fun f q => FS.set f q Entry.dir) fs)
        (((options.dest_dir.join (FPath.rel ".vim")).join
          (FPath.rel "autoload")).join (FPath.rel "plug.vim")) = none ∨
        FS.lookup ((FPath.prefixPaths
        ((options.dest_dir.join (FPath.rel ".vim")).join
          (FPath.rel "autoload"))).foldl
        (fun f q => FS.set f q Entry.dir) fs)
        (((options.dest_dir.join (FPath.rel ".vim")).join
          (FPath.rel "autoload")).join (FPath.rel "plug.vim")) =
          some (Entry.file response.2) := by
      rw [FS.lookup_foldl_set_dir, if_neg hplugpre]
      exact hplug
    have hDV0 : FS.lookup ((FPath.prefixPaths
        ((options.dest_dir.join (FPath.rel ".vim")).join
          (FPath.rel "autoload"))).foldl
        (fun f q => FS.set f q Entry.dir) fs)
        (options.dest_dir.join (FPath.rel ".vimrc")) = none ∨
        FS.lookup ((FPath.prefixPaths
        ((options.dest_dir.join (FPath.rel ".vim")).join
          (FPath.rel "autoload"))).foldl
        (fun f q => FS.set f q Entry.dir) fs)
        (options.dest_dir.join (FPath.rel ".vimrc")) =
          some (Entry.file vimrcContent) := by
      rw [FS.lookup_foldl_set_dir, if_neg hDVpre]
      exact hDV
    have hdot0 : FS.lookup ((FPath.prefixPaths
        ((options.dest_dir.join (FPath.rel ".vim")).join
          (FPath.rel "autoload"))).foldl
        (fun f q => FS.set f q Entry.dir) fs)
        ((options.dest_dir.join (FPath.rel ".vim")).join
          (FPath.rel "autoload")) = some Entry.dir := by
      rw [FS.lookup_foldl_set_dir, if_pos hself]
    have facts := vim_postmkdir_facts options tmp response
      ((FPath.prefixPaths ((options.dest_dir.join (FPath.rel ".vim")).join
        (FPath.rel "autoload"))).foldl (fun f q => FS.set f q Entry.dir) fs)
      a hov habs hRV0 htmp0 hplug0 hDV0 hdot0 hRVplug hRVDV htmpDV htmpplug
      hDVplug htmpdot hDVdot hplugdot
    exact ⟨FS.unlink (FS.set (FS.set (FS.set ((FPath.prefixPaths
        ((options.dest_dir.join (FPath.rel ".vim")).join
          (FPath.rel "autoload"))).foldl (fun f q => FS.set f q Entry.dir) fs)
        (((options.dest_dir.join (FPath.rel ".vim")).join
          (FPath.rel "autoload")).join (FPath.rel "plug.vim"))
        (Entry.file response.2)) tmp (Entry.file vimrcContent))
        (options.dest_dir.join (FPath.rel ".vimrc"))
        (Entry.file vimrcContent)) tmp,
      by simp [Vim.run, hmk, hov, hst, facts.1, facts.2.1],
      facts.2.2.1, facts.2.2.2.1, facts.2.2.2.2.1, facts.2.2.2.2.2.1,
      facts.2.2.2.2.2.2⟩

/-- Overwrite-mode symlink placement succeeds any number of times from a
state whose destination is absent or is the installed symlink. -/
theorem symLink_overwrite_always (options : Opts) (f : String) (c : String)
    (hov : options.overwrite = true) (hc : 0 < c.length) :
    ∀ (n : Nat) (fs : FS),
      FS.lookup fs (RESOURCES_PATH.join (FPath.rel f)) = some (Entry.file c) →
      (FS.lookup fs (options.dest_dir.join (FPath.rel f)) = none ∨
        FS.lookup fs (options.dest_dir.join (FPath.rel f)) =
          some (Entry.symlink (RESOURCES_PATH.join (FPath.rel f)))) →
      alwaysSucceeds (SymLink.run options f)
        [options.dest_dir.join (FPath.rel f)] n fs := by
  intro n fs hres hdst
  refine alwaysSucceeds_of_inv (fun g =>
    FS.lookup g (RESOURCES_PATH.join (FPath.rel f)) = some (Entry.file c) ∧
    (FS.lookup g (options.dest_dir.join (FPath.rel f)) = none ∨
      FS.lookup g (options.dest_dir.join (FPath.rel f)) =
        some (Entry.symlink (RESOURCES_PATH.join (FPath.rel f)))))
    ?_ n fs ⟨hres, hdst⟩
  rintro g ⟨h1, h2⟩
  obtain ⟨fs', hrun, hres2, hdst2, hsize⟩ :=
    symLink_overwrite_step options f g c hov h1 h2
  refine ⟨fs', hrun, ⟨hres2, Or.inr hdst2⟩, ?_⟩
  intro d hd
  simp only [List.mem_singleton] at hd
  subst hd
  exact ⟨c.length, hsize, hc⟩

set_option maxRecDepth 8192 in
/-- C4 (amended): for every installer configured with overwrite (and the two
placement primitives they are built on), repeated runs — any number of
consecutive runs — always return SUCCESS and never SKIP, and every file the
installer places is non-empty after each run, provided each placed path
initially holds no entry or already holds the artifact the installer places
(the symlink to the resource, the copied regular file, the generated
wrapper, the downloaded script, the created directory), and the runs'
implicit preconditions hold: bundled resources present as non-empty regular
files, an absolute destination directory, temporary paths fresh and distinct
from the placed and resource paths, and (for Vim) a status-200 response with
a non-empty body.  The original quantification over arbitrary starting
states is refuted by `overwrite_run_not_always_success_cex`. -/
theorem overwrite_repeated_runs_succeed :
    (∀ (options : Opts) (f : String) (fs : FS) (c : String) (n : Nat),
      options.overwrite = true →
      FS.lookup fs (RESOURCES_PATH.join (FPath.rel f)) = some (Entry.file c) →
      0 < c.length →
      (FS.lookup fs (options.dest_dir.join (FPath.rel f)) = none ∨
        FS.lookup fs (options.dest_dir.join (FPath.rel f)) =
          some (Entry.symlink (RESOURCES_PATH.join (FPath.rel f)))) →
      alwaysSucceeds (SymLink.run options f)
        [options.dest_dir.join (FPath.rel f)] n fs) ∧
    (∀ (options : Opts) (sp dp : FPath) (fs : FS) (c : String) (n : Nat),
      options.overwrite = true →
      FS.lookup fs sp = some (Entry.file c) → 0 < c.length →
      sp ≠ CopyFile.dst options dp →
      (FS.lookup fs (CopyFile.dst options dp) = none ∨
        FS.lookup fs (CopyFile.dst options dp) = some (Entry.file c)) →
      alwaysSucceeds (CopyFile.run options sp dp)
        [CopyFile.dst options dp] n fs) ∧
    (∀ (which : String → Bool) (options : Opts) (fs : FS) (c : String) (n : Nat),
      options.overwrite = true →
      FS.lookup fs (RESOURCES_PATH.join (FPath.rel ".tmux.conf")) =
        some (Entry.file c) → 0 < c.length →
      (FS.lookup fs (options.dest_dir.join (FPath.rel ".tmux.conf")) = none ∨
        FS.lookup fs (options.dest_dir.join (FPath.rel ".tmux.conf")) =
          some (Entry.symlink (RESOURCES_PATH.join (FPath.rel ".tmux.conf")))) →
      alwaysSucceeds (TMux.run which options)
        [options.dest_dir.join (FPath.rel ".tmux.conf")] n fs) ∧
    (∀ (options : Opts) (fs : FS) (c : String) (n : Nat),
      options.overwrite = true →
      FS.lookup fs (RESOURCES_PATH.join (FPath.rel ".vimperatorrc")) =
        some (Entry.file c) → 0 < c.length →
      (FS.lookup fs (options.dest_dir.join (FPath.rel ".vimperatorrc")) = none ∨
        FS.lookup fs (options.dest_dir.join (FPath.rel ".vimperatorrc")) =
          some (Entry.symlink (RESOURCES_PATH.join (FPath.rel ".vimperatorrc")))) →
      alwaysSucceeds (Vimperator.run options)
        [options.dest_dir.join (FPath.rel ".vimperatorrc")] n fs) ∧
    (∀ (which : String → Bool) (options : Opts) (fs : FS) (c : String) (n : Nat),
      options.overwrite = true →
      FS.lookup fs (RESOURCES_PATH.join (FPath.rel ".gdbinit")) =
        some (Entry.file c) → 0 < c.length →
      (FS.lookup fs (options.dest_dir.join (FPath.rel ".gdbinit")) = none ∨
        FS.lookup fs (options.dest_dir.join (FPath.rel ".gdbinit")) =
          some (Entry.symlink (RESOURCES_PATH.join (FPath.rel ".gdbinit")))) →
      alwaysSucceeds (Gdb.run which options)
        [options.dest_dir.join (FPath.rel ".gdbinit")] n fs) ∧
    (∀ (which : String → Bool) (options : Opts) (fs : FS) (c : String) (n : Nat),
      options.overwrite = true →
      FS.lookup fs (RESOURCES_PATH.join (FPath.rel ".fvwm2rc")) =
        some (Entry.file c) → 0 < c.length →
      (FS.lookup fs (options.dest_dir.join (FPath.rel ".fvwm2rc")) = none ∨
        FS.lookup fs (options.dest_dir.join (FPath.rel ".fvwm2rc")) =
          some (Entry.symlink (RESOURCES_PATH.join (FPath.rel ".fvwm2rc")))) →
      alwaysSucceeds (Fvwm2.run which options)
        [options.dest_dir.join (FPath.rel ".fvwm2rc")] n fs) ∧
    (∀ (which : String → Bool) (options : Opts) (tmp : FPath) (fs : FS)
        (c0 : String) (n : Nat),
      options.overwrite = true → options.dest_dir.absolute = true →
      FS.lookup fs (RESOURCES_PATH.join (FPath.rel ".gitconfig")) =
        some (Entry.file c0) →
      FS.lookup fs tmp = none →
      tmp ≠ options.dest_dir.join (FPath.rel ".gitconfig") →
      RESOURCES_PATH.join (FPath.rel ".gitconfig") ≠
        options.dest_dir.join (FPath.rel ".gitconfig") →
      (FS.lookup fs (options.dest_dir.join (FPath.rel ".gitconfig")) = none ∨
        FS.lookup fs (options.dest_dir.join (FPath.rel ".gitconfig")) =
          some (Entry.file gitconfigContent)) →
      alwaysSucceeds (Git.run which options tmp)
        [options.dest_dir.join (FPath.rel ".gitconfig")] n fs) ∧
    (∀ (which : String → Bool) (options : Opts) (t1 t2 : FPath) (fs : FS)
        (a b : String) (n : Nat),
      options.overwrite = true → options.dest_dir.absolute = true →
      FS.lookup fs (RESOURCES_PATH.join (FPath.rel ".zshrc")) =
        some (Entry.file a) →
      FS.lookup fs (RESOURCES_PATH.join (FPath.rel ".zshenv")) =
        some (Entry.file b) →
      FS.lookup fs t1 = none → FS.lookup fs t2 = none →
      (FS.lookup fs (options.dest_dir.join (FPath.rel ".zshrc")) = none ∨
        FS.lookup fs (options.dest_dir.join (FPath.rel ".zshrc")) =
          some (Entry.file zshrcContent)) →
      (FS.lookup fs (options.dest_dir.join (FPath.rel ".zshenv")) = none ∨
        FS.lookup fs (options.dest_dir.join (FPath.rel ".zshenv")) =
          some (Entry.file zshenvContent)) →
      t1 ≠ options.dest_dir.join (FPath.rel ".zshrc") →
      t1 ≠ options.dest_dir.join (FPath.rel ".zshenv") →
      t2 ≠ options.dest_dir.join (FPath.rel ".zshrc") →
      t2 ≠ options.dest_dir.join (FPath.rel ".zshenv") →
      RESOURCES_PATH.join (FPath.rel ".zshrc") ≠
        options.dest_dir.join (FPath.rel ".zshrc") →
      RESOURCES_PATH.join (FPath.rel ".zshrc") ≠
        options.dest_dir.join (FPath.rel ".zshenv") →
      RESOURCES_PATH.join (FPath.rel ".zshenv") ≠
        options.dest_dir.join (FPath.rel ".zshrc") →
      RESOURCES_PATH.join (FPath.rel ".zshenv") ≠
        options.dest_dir.join (FPath.rel ".zshenv") →
      t1 ≠ options.dest_dir.join (FPath.rel ".zsh-completions") →
      alwaysSucceeds (fun g => (Zsh.run which options t1 t2 g).1)
        [options.dest_dir.join (FPath.rel ".zshrc"),
         options.dest_dir.join (FPath.rel ".zshenv")] n fs) ∧
    (∀ (which : String → Bool) (options : Opts) (response : Nat × String)
        (tmp : FPath) (fs : FS) (a : String) (n : Nat),
      options.overwrite = true → options.dest_dir.absolute = true →
      response.1 = 200 → 0 < response.2.length →
      FS.lookup fs (RESOURCES_PATH.join (FPath.rel ".vimrc")) =
        some (Entry.file a) →
      FS.lookup fs tmp = none →
      (FS.lookup fs (((options.dest_dir.join (FPath.rel ".vim")).join
          (FPath.rel "autoload")).join (FPath.rel "plug.vim")) = none ∨
        FS.lookup fs (((options.dest_dir.join (FPath.rel ".vim")).join
          (FPath.rel "autoload")).join (FPath.rel "plug.vim")) =
          some (Entry.file response.2)) →
      (FS.lookup fs (options.dest_dir.join (FPath.rel ".vimrc")) = none ∨
        FS.lookup fs (options.dest_dir.join (FPath.rel ".vimrc")) =
          some (Entry.file vimrcContent)) →
      (FS.lookup fs ((options.dest_dir.join (FPath.rel ".vim")).join
          (FPath.rel "autoload")) = some Entry.dir ∨
        FS.lookup fs ((options.dest_dir.join (FPath.rel ".vim")).join
          (FPath.rel "autoload")) = none) →
      RESOURCES_PATH.join (FPath.rel ".vimrc") ≠
        ((options.dest_dir.join (FPath.rel ".vim")).join
          (FPath.rel "autoload")).join (FPath.rel "plug.vim") →
      RESOURCES_PATH.join (FPath.rel ".vimrc") ≠
        options.dest_dir.join (FPath.rel ".vimrc") →
      tmp ≠ options.dest_dir.join (FPath.rel ".vimrc") →
      tmp ≠ ((options.dest_dir.join (FPath.rel ".vim")).join
        (FPath.rel "autoload")).join (FPath.rel "plug.vim") →
      options.dest_dir.join (FPath.rel ".vimrc") ≠
        ((options.dest_dir.join (FPath.rel ".vim")).join
          (FPath.rel "autoload")).join (FPath.rel "plug.vim") →
      RESOURCES_PATH.join (FPath.rel ".vimrc") ∉
        FPath.prefixPaths ((options.dest_dir.join (FPath.rel ".vim")).join
          (FPath.rel "autoload")) →
      tmp ∉ FPath.prefixPaths ((options.dest_dir.join (FPath.rel ".vim")).join
        (FPath.rel "autoload")) →
      options.dest_dir.join (FPath.rel ".vimrc") ∉
        FPath.prefixPaths ((options.dest_dir.join (FPath.rel ".vim")).join
          (FPath.rel "autoload")) →
      ((options.dest_dir.join (FPath.rel ".vim")).join
          (FPath.rel "autoload")).join (FPath.rel "plug.vim") ∉
        FPath.prefixPaths ((options.dest_dir.join (FPath.rel ".vim")).join
          (FPath.rel "autoload")) →
      alwaysSucceeds (fun g => (Vim.run which options response tmp g).1)
        [((options.dest_dir.join (FPath.rel ".vim")).join
           (FPath.rel "autoload")).join (FPath.rel "plug.vim"),
         options.dest_dir.join (FPath.rel ".vimrc")] n fs) ∧
    (∀ (which : String → Bool) (options : Opts) (fs : FS) (n : Nat),
      options.overwrite = true →
      alwaysSucceeds (CommandLineHelper.run which options) [] n fs) := by
  refine ⟨?_, ?_, ?_, ?_, ?_, ?_, ?_, ?_, ?_, ?_⟩
  · intro options f fs c n hov hres hc hdst
    exact symLink_overwrite_always options f c hov hc n fs hres hdst
  · intro options sp dp fs c n hov hsp hc hne hdst
    refine alwaysSucceeds_of_inv (fun g =>
      FS.lookup g sp = some (Entry.file c) ∧
      (FS.lookup g (CopyFile.dst options dp) = none ∨
        FS.lookup g (CopyFile.dst options dp) = some (Entry.file c)))
      ?_ n fs ⟨hsp, hdst⟩
    rintro g ⟨h1, h2⟩
    have hrun := copyFile_overwrite_step options sp dp g c hov h1 h2
    refine ⟨FS.set g (CopyFile.dst options dp) (Entry.file c), hrun,
      ⟨?_, Or.inr ?_⟩, ?_⟩
    · rw [FS.lookup_set, if_neg (fun hc2 => hne hc2.symm)]; exact h1
    · rw [FS.lookup_set]; simp
    · intro d hd
      simp only [List.mem_singleton] at hd
      subst hd
      exact ⟨c.length, FS.size_lookup_file (by rw [FS.lookup_set]; simp), hc⟩
  · intro which options fs c n hov hres hc hdst
    have hfe : TMux.run which options = SymLink.run options ".tmux.conf" :=
      funext fun g => rfl
    rw [hfe]
    exact symLink_overwrite_always options ".tmux.conf" c hov hc n fs hres hdst
  · intro options fs c n hov hres hc hdst
    have hfe : Vimperator.run options = SymLink.run options ".vimperatorrc" :=
      funext fun g => rfl
    rw [hfe]
    exact symLink_overwrite_always options ".vimperatorrc" c hov hc n fs hres hdst
  · intro which options fs c n hov hres hc hdst
    have hfe : Gdb.run which options = SymLink.run options ".gdbinit" :=
      funext fun g => rfl
    rw [hfe]
    exact symLink_overwrite_always options ".gdbinit" c hov hc n fs hres hdst
  · intro which options fs c n hov hres hc hdst
    have hfe : Fvwm2.run which options = SymLink.run options ".fvwm2rc" :=
      funext fun g => rfl
    rw [hfe]
    exact symLink_overwrite_always options ".fvwm2rc" c hov hc n fs hres hdst
  · intro which options tmp fs c0 n hov habs hres htmp htmpne hresne hdst
    refine alwaysSucceeds_of_inv (fun g =>
      FS.lookup g (RESOURCES_PATH.join (FPath.rel ".gitconfig")) =
        some (Entry.file c0) ∧
      FS.lookup g tmp = none ∧
      (FS.lookup g (options.dest_dir.join (FPath.rel ".gitconfig")) = none ∨
        FS.lookup g (options.dest_dir.join (FPath.rel ".gitconfig")) =
          some (Entry.file gitconfigContent)))
      ?_ n fs ⟨hres, htmp, hdst⟩
    rintro g ⟨i1, i2, i3⟩
    have hrestmp : RESOURCES_PATH.join (FPath.rel ".gitconfig") ≠ tmp := by
      intro hcx; rw [hcx, i2] at i1; exact absurd i1 (by simp)
    have hrun := git_overwrite_step which options tmp g c0 hov habs i1 htmpne i3
    refine ⟨_, hrun, ⟨?_, ?_, Or.inr ?_⟩, ?_⟩
    · rw [FS.lookup_unlink, if_neg (fun hcq => hrestmp hcq.symm),
        FS.lookup_set, if_neg (fun hcq => hresne hcq.symm),
        FS.lookup_set, if_neg (fun hcq => hrestmp hcq.symm)]
      exact i1
    · rw [FS.lookup_unlink, if_pos rfl]
    · rw [FS.lookup_unlink, if_neg htmpne, FS.lookup_set]; simp
    · intro d hd
      simp only [List.mem_singleton] at hd
      subst hd
      refine ⟨gitconfigContent.length, FS.size_lookup_file ?_, by decide⟩
      rw [FS.lookup_unlink, if_neg htmpne, FS.lookup_set]; simp
  · intro which options t1 t2 fs a b n hov habs hR1 hR2 ht1 ht2 hD1 hD2
      ht1D1 ht1D2 ht2D1 ht2D2 hR1D1 hR1D2 hR2D1 hR2D2 ht1CP
    refine alwaysSucceeds_of_inv (fun g =>
      FS.lookup g (RESOURCES_PATH.join (FPath.rel ".zshrc")) =
        some (Entry.file a) ∧
      FS.lookup g (RESOURCES_PATH.join (FPath.rel ".zshenv")) =
        some (Entry.file b) ∧
      FS.lookup g t1 = none ∧ FS.lookup g t2 = none ∧
      (FS.lookup g (options.dest_dir.join (FPath.rel ".zshrc")) = none ∨
        FS.lookup g (options.dest_dir.join (FPath.rel ".zshrc")) =
          some (Entry.file zshrcContent)) ∧
      (FS.lookup g (options.dest_dir.join (FPath.rel ".zshenv")) = none ∨
        FS.lookup g (options.dest_dir.join (FPath.rel ".zshenv")) =
          some (Entry.file zshenvContent)))
      ?_ n fs ⟨hR1, hR2, ht1, ht2, hD1, hD2⟩
    rintro g ⟨i1, i2, i3, i4, i5, i6⟩
    obtain ⟨fs', hrun, p1, p2, p3, p4, p5, p6⟩ :=
      zsh_overwrite_step which options t1 t2 g a b hov habs i1 i2 i3 i4 i5 i6
        ht1D1 ht1D2 ht2D1 ht2D2 hR1D1 hR1D2 hR2D1 hR2D2 ht1CP
    refine ⟨fs', hrun, ⟨p1, p2, p3, p4, Or.inr p5, Or.inr p6⟩, ?_⟩
    intro d hd
    simp only [List.mem_cons, List.mem_singleton, List.not_mem_nil,
      or_false] at hd
    rcases hd with rfl | rfl
    · exact ⟨zshrcContent.length, FS.size_lookup_file p5, by decide⟩
    · exact ⟨zshenvContent.length, FS.size_lookup_file p6, by decide⟩
  · intro which options response tmp fs a n hov habs hst hlen hRV htmp hplug
      hDV hdot hRVplug hRVDV htmpDV htmpplug hDVplug hRVpre htmppre hDVpre
      hplugpre
    refine alwaysSucceeds_of_inv (fun g =>
      FS.lookup g (RESOURCES_PATH.join (FPath.rel ".vimrc")) =
        some (Entry.file a) ∧
      FS.lookup g tmp = none ∧
      (FS.lookup g (((options.dest_dir.join (FPath.rel ".vim")).join
          (FPath.rel "autoload")).join (FPath.rel "plug.vim")) = none ∨
        FS.lookup g (((options.dest_dir.join (FPath.rel ".vim")).join
          (FPath.rel "autoload")).join (FPath.rel "plug.vim")) =
          some (Entry.file response.2)) ∧
      (FS.lookup g (options.dest_dir.join (FPath.rel ".vimrc")) = none ∨
        FS.lookup g (options.dest_dir.join (FPath.rel ".vimrc")) =
          some (Entry.file vimrcContent)) ∧
      (FS.lookup g ((options.dest_dir.join (FPath.rel ".vim")).join
          (FPath.rel "autoload")) = some Entry.dir ∨
        FS.lookup g ((options.dest_dir.join (FPath.rel ".vim")).join
          (FPath.rel "autoload")) = none))
      ?_ n fs ⟨hRV, htmp, hplug, hDV, hdot⟩
    rintro g ⟨i1, i2, i3, i4, i5⟩
    obtain ⟨fs', hrun, p1, p2, p3, p4, p5⟩ :=
      vim_overwrite_step which options response tmp g a hov habs hst i1 i2 i3
        i4 i5 hRVplug hRVDV htmpDV htmpplug hDVplug hRVpre htmppre hDVpre
        hplugpre
    refine ⟨fs', hrun, ⟨p1, p2, Or.inr p3, Or.inr p4, Or.inl p5⟩, ?_⟩
    intro d hd
    simp only [List.mem_cons, List.mem_singleton, List.not_mem_nil,
      or_false] at hd
    rcases hd with rfl | rfl
    · exact ⟨response.2.length, FS.size_lookup_file p3, hlen⟩
    · exact ⟨vimrcContent.length, FS.size_lookup_file p4, by decide⟩
  · intro which options fs n hov
    refine alwaysSucceeds_of_inv (fun _ => True) ?_ n fs trivial
    intro g _
    exact ⟨g, rfl, trivial, by intro d hd; simp at hd⟩

/-- Witness for C4 (amended): two consecutive overwrite-mode Gdb runs
starting from a state whose destination already holds the installed
symlink. -/
theorem overwrite_repeated_runs_succeed_witness :
    alwaysSucceeds (Gdb.run sampleWhich sampleOptT)
      [sampleOptT.dest_dir.join (FPath.rel ".gdbinit")] 2
      [(RESOURCES_PATH.join (FPath.rel ".gdbinit"), some (Entry.file "a")),
       (sampleDest.join (FPath.rel ".gdbinit"),
        some (Entry.symlink (RESOURCES_PATH.join (FPath.rel ".gdbinit"))))] :=
  overwrite_repeated_runs_succeed.2.2.2.2.1 sampleWhich sampleOptT _ "a" 2
    (by decide) (by decide) (by decide) (Or.inr (by decide))

/-! ### Claim C5 -/

/-- The git config wrapper text as the spec's interface section spells it
(spec-side definition, to be compared with the code's template). -/
def specGitConfigWrapper (p : String) : String :=
  "[include]\n    path = " ++ p ++
  "\n[filter \"lfs\"]\n    clean = git-lfs clean -- %f\n    smudge = git-lfs smudge -- %f\n    process = git-lfs filter-process\n    required = true"

set_option maxRecDepth 8192 in
/-- C5: after a successful first Git-installer run on an empty destination,
`.gitconfig` exists in the destination, is non-empty, its content is the
stripped instantiation of the git config template at the absolute resource
path (in the spec's exact wrapper form), and it contains the literal
substring `[filter "lfs"]`. -/
theorem git_run_first (which : String → Bool) (options : Opts) (tmp : FPath)
    (fs : FS) (c0 : String)
    (habs : options.dest_dir.absolute = true)
    (hres : FS.lookup fs (RESOURCES_PATH.join (FPath.rel ".gitconfig")) =
      some (Entry.file c0))
    (hdst : FS.lookup fs (options.dest_dir.join (FPath.rel ".gitconfig")) = none)
    (htmp : tmp ≠ options.dest_dir.join (FPath.rel ".gitconfig")) :
    ∃ fs', Git.run which options tmp fs = Except.ok (ExitCode.SUCCESS, fs') ∧
      FS.lookup fs' (options.dest_dir.join (FPath.rel ".gitconfig")) =
        some (Entry.file (pyStrip (GIT_CONFIG_TEMPLATE
          (RESOURCES_PATH.join (FPath.rel ".gitconfig")).toStr))) ∧
      (∃ n, FS.size fs' (options.dest_dir.join (FPath.rel ".gitconfig")) =
        some n ∧ 0 < n) ∧
      strHasSub (pyStrip (GIT_CONFIG_TEMPLATE
        (RESOURCES_PATH.join (FPath.rel ".gitconfig")).toStr))
        "[filter \"lfs\"]" = true ∧
      pyStrip (GIT_CONFIG_TEMPLATE
          (RESOURCES_PATH.join (FPath.rel ".gitconfig")).toStr) =
        specGitConfigWrapper (RESOURCES_PATH.join (FPath.rel ".gitconfig")).toStr := by
  have hsrcE : FS.pexists fs (RESOURCES_PATH.join (FPath.rel ".gitconfig")) = true :=
    FS.pexists_lookup_file hres
  have h1 : FS.lookup (FS.set fs tmp (Entry.file (pyStrip (GIT_CONFIG_TEMPLATE
      (RESOURCES_PATH.join (FPath.rel ".gitconfig")).toStr)))) tmp =
      some (Entry.file (pyStrip (GIT_CONFIG_TEMPLATE
        (RESOURCES_PATH.join (FPath.rel ".gitconfig")).toStr))) := by
    rw [FS.lookup_set]; simp
  have h2 : FS.lookup (FS.set fs tmp (Entry.file (pyStrip (GIT_CONFIG_TEMPLATE
      (RESOURCES_PATH.join (FPath.rel ".gitconfig")).toStr))))
      (options.dest_dir.join (FPath.rel ".gitconfig")) = none := by
    rw [FS.lookup_set, if_neg htmp]; exact hdst
  have hdstEq : CopyFile.dst options
      (options.dest_dir.join (FPath.rel ".gitconfig")) =
      options.dest_dir.join (FPath.rel ".gitconfig") := by
    simp [CopyFile.dst, FPath.join, FPath.rel, habs]
  have hrun1 : CopyFile.run options tmp
      (options.dest_dir.join (FPath.rel ".gitconfig"))
      (FS.set fs tmp (Entry.file (pyStrip (GIT_CONFIG_TEMPLATE
        (RESOURCES_PATH.join (FPath.rel ".gitconfig")).toStr)))) =
      Except.ok (ExitCode.SUCCESS,
        FS.set (FS.set fs tmp (Entry.file (pyStrip (GIT_CONFIG_TEMPLATE
          (RESOURCES_PATH.join (FPath.rel ".gitconfig")).toStr))))
          (options.dest_dir.join (FPath.rel ".gitconfig"))
          (Entry.file (pyStrip (GIT_CONFIG_TEMPLATE
            (RESOURCES_PATH.join (FPath.rel ".gitconfig")).toStr)))) := by
    simp only [CopyFile.run, hdstEq]
    simp [FS.pexists_lookup_file h1, FS.pexists_lookup_none h2,
      FS.copy_eval_file_none h1 h2, Except.map]
  refine ⟨FS.unlink (FS.set (FS.set fs tmp (Entry.file (pyStrip (GIT_CONFIG_TEMPLATE
      (RESOURCES_PATH.join (FPath.rel ".gitconfig")).toStr))))
      (options.dest_dir.join (FPath.rel ".gitconfig"))
      (Entry.file (pyStrip (GIT_CONFIG_TEMPLATE
        (RESOURCES_PATH.join (FPath.rel ".gitconfig")).toStr)))) tmp,
    ?_, ?_, ?_, ?_, ?_⟩
  · simp [Git.run, hsrcE, hrun1]
  · rw [FS.lookup_unlink, if_neg htmp, FS.lookup_set]; simp
  · refine ⟨(pyStrip (GIT_CONFIG_TEMPLATE
      (RESOURCES_PATH.join (FPath.rel ".gitconfig")).toStr)).length, ?_, ?_⟩
    · exact FS.size_lookup_file
        (by rw [FS.lookup_unlink, if_neg htmp, FS.lookup_set]; simp)
    · decide
  · decide
  · decide

set_option maxRecDepth 8192 in
/-- Witness for C5 on a one-file resource filesystem. -/
theorem git_run_first_witness :
    ∃ fs', Git.run sampleWhich sampleOptF ⟨true, ["tmp", "g0"]⟩
        [(RESOURCES_PATH.join (FPath.rel ".gitconfig"), some (Entry.file "x"))] =
        Except.ok (ExitCode.SUCCESS, fs') ∧
      FS.lookup fs' (sampleOptF.dest_dir.join (FPath.rel ".gitconfig")) =
        some (Entry.file (pyStrip (GIT_CONFIG_TEMPLATE
          (RESOURCES_PATH.join (FPath.rel ".gitconfig")).toStr))) ∧
      (∃ n, FS.size fs' (sampleOptF.dest_dir.join (FPath.rel ".gitconfig")) =
        some n ∧ 0 < n) ∧
      strHasSub (pyStrip (GIT_CONFIG_TEMPLATE
        (RESOURCES_PATH.join (FPath.rel ".gitconfig")).toStr))
        "[filter \"lfs\"]" = true ∧
      pyStrip (GIT_CONFIG_TEMPLATE
          (RESOURCES_PATH.join (FPath.rel ".gitconfig")).toStr) =
        specGitConfigWrapper (RESOURCES_PATH.join (FPath.rel ".gitconfig")).toStr :=
  git_run_first sampleWhich sampleOptF ⟨true, ["tmp", "g0"]⟩ _ "x"
    (by decide) (by decide) (by decide) (by decide)

/-! ### Claim C6 -/

/-- C6: the Zsh installer's run returns the outcome of the second
(`.zshenv`) copy; when the first (`.zshrc`) copy completes with an outcome
other than SUCCESS, the run returns that first outcome immediately after
deleting the temporary file — the `.zshenv` phase (temp file, copy) never
happens and the returned state is exactly the post-first-copy state. -/
theorem zsh_run_outcomes (which : String → Bool) (options : Opts)
    (tmp1 tmp2 : FPath) (fs fs0 : FS) (tr0 : List Event)
    (hfs0 : fs0 = if FS.pexists fs
        (options.dest_dir.join (FPath.rel ".zsh-completions")) then fs
      else FS.cloneRepo fs ZSH_COMPLETIONS_URL
        (options.dest_dir.join (FPath.rel ".zsh-completions")))
    (htr0 : tr0 = if FS.pexists fs
        (options.dest_dir.join (FPath.rel ".zsh-completions")) then []
      else [Event.gitClone ZSH_COMPLETIONS_URL
        (options.dest_dir.join (FPath.rel ".zsh-completions"))])
    (hconf : FS.pexists fs0 (RESOURCES_PATH.join (FPath.rel ".zshrc")) = true) :
    (∀ (code : ExitCode) (g : FS),
      CopyFile.run options tmp1 (options.dest_dir.join (FPath.rel ".zshrc"))
        (FS.set fs0 tmp1 (Entry.file zshrcContent)) = Except.ok (code, g) →
      code ≠ ExitCode.SUCCESS →
      Zsh.run which options tmp1 tmp2 fs =
        (Except.ok (code, FS.unlink g tmp1), tr0)) ∧
    (∀ (g : FS) (code2 : ExitCode) (g2 : FS),
      CopyFile.run options tmp1 (options.dest_dir.join (FPath.rel ".zshrc"))
        (FS.set fs0 tmp1 (Entry.file zshrcContent)) =
          Except.ok (ExitCode.SUCCESS, g) →
      FS.pexists (FS.unlink g tmp1)
        (RESOURCES_PATH.join (FPath.rel ".zshenv")) = true →
      CopyFile.run options tmp2 (options.dest_dir.join (FPath.rel ".zshenv"))
        (FS.set (FS.unlink g tmp1) tmp2 (Entry.file zshenvContent)) =
          Except.ok (code2, g2) →
      Zsh.run which options tmp1 tmp2 fs =
        (Except.ok (code2, FS.unlink g2 tmp2), tr0)) := by
  by_cases hc : FS.pexists fs
      (options.dest_dir.join (FPath.rel ".zsh-completions")) = true
  · rw [if_pos hc] at hfs0 htr0
    subst hfs0
    subst htr0
    constructor
    · intro code g hfirst hcode
      simp [Zsh.run, Zsh.copies, hc, hconf, hfirst, hcode]
    · intro g code2 g2 hfirst hconf2 hsecond
      simp [Zsh.run, Zsh.copies, hc, hconf, hfirst, hconf2, hsecond]
  · rw [Bool.not_eq_true] at hc
    rw [hc] at hfs0 htr0
    simp only [Bool.false_eq_true, if_false] at hfs0 htr0
    subst hfs0
    subst htr0
    constructor
    · intro code g hfirst hcode
      simp [Zsh.run, Zsh.copies, hc, hconf, hfirst, hcode]
    · intro g code2 g2 hfirst hconf2 hsecond
      simp [Zsh.run, Zsh.copies, hc, hconf, hfirst, hconf2, hsecond]

/-- Concrete filesystem for the C6 witness: completions directory present,
both resources bundled, and a `.zshrc` already installed at the
destination. -/
def zshSkipFS : FS :=
  [(sampleDest.join (FPath.rel ".zsh-completions"), some Entry.dir),
   (RESOURCES_PATH.join (FPath.rel ".zshrc"), some (Entry.file "r")),
   (RESOURCES_PATH.join (FPath.rel ".zshenv"), some (Entry.file "e")),
   (sampleDest.join (FPath.rel ".zshrc"), some (Entry.file "w"))]

/-- Witness for C6: with a pre-existing `.zshrc` and no overwrite the first
copy is a SKIP and the run returns it at once, the `.zshenv` phase never
happening. -/
theorem zsh_run_outcomes_witness :
    Zsh.run sampleWhich sampleOptF ⟨true, ["tmp", "z1"]⟩ ⟨true, ["tmp", "z2"]⟩
      zshSkipFS =
      (Except.ok (ExitCode.SKIP,
        FS.unlink (FS.set zshSkipFS ⟨true, ["tmp", "z1"]⟩
          (Entry.file zshrcContent)) ⟨true, ["tmp", "z1"]⟩), []) :=
  (zsh_run_outcomes sampleWhich sampleOptF ⟨true, ["tmp", "z1"]⟩
      ⟨true, ["tmp", "z2"]⟩ zshSkipFS zshSkipFS [] (by decide) (by decide)
      (by decide)).1
    ExitCode.SKIP (FS.set zshSkipFS ⟨true, ["tmp", "z1"]⟩
      (Entry.file zshrcContent)) (by decide) (by decide)

/-! ### Claim C7 -/

/-- Number of repository clones recorded in an event trace. -/
def cloneCount (tr : List Event) : Nat :=
  (tr.filter (fun e => match e with
    | Event.gitClone _ _ => true
    | _ => false)).length

/-- Pointwise effect and length growth of a completed `Zsh.copies`: outside
the two temporary paths every path keeps its binding or ends bound to a
regular file, and the filesystem does not shrink. -/
theorem zsh_copies_ok_facts {options : Opts} {tmp1 tmp2 : FPath}
    {fs0 fs' : FS} {code : ExitCode}
    (h : Zsh.copies options tmp1 tmp2 fs0 = Except.ok (code, fs')) :
    (∀ q, q ≠ tmp1 → q ≠ tmp2 →
      (FS.lookup fs' q = FS.lookup fs0 q ∨
        ∃ s, FS.lookup fs' q = some (Entry.file s))) ∧
    fs0.length ≤ fs'.length := by
  simp only [Zsh.copies] at h
  by_cases hA : FS.pexists fs0 (RESOURCES_PATH.join (FPath.rel ".zshrc")) = false
  · rw [if_pos hA] at h; exact absurd h (by simp)
  · rw [if_neg hA] at h
    split at h
    · exact absurd h (by simp)
    · rename_i ret g h1
      have facts1 := CopyFile.run_ok_facts h1
      by_cases hret : ret = ExitCode.SUCCESS
      · rw [if_neg (by simp [hret])] at h
        subst hret
        by_cases hB : FS.pexists (FS.unlink g tmp1)
            (RESOURCES_PATH.join (FPath.rel ".zshenv")) = false
        · rw [if_pos hB] at h; exact absurd h (by simp)
        · rw [if_neg hB] at h
          split at h
          · exact absurd h (by simp)
          · rename_i ret2 g2 h2
            have facts2 := CopyFile.run_ok_facts h2
            simp at h
            rw [← h.2]
            constructor
            · intro q hq1 hq2
              rw [FS.lookup_unlink, if_neg (fun hcon => hq2 hcon.symm)]
              rcases facts2.1 q with h2q | ⟨s, hs⟩
              · rw [h2q, FS.lookup_set, if_neg (fun hcon => hq2 hcon.symm),
                  FS.lookup_unlink, if_neg (fun hcon => hq1 hcon.symm)]
                rcases facts1.1 q with h1q | ⟨s, hs⟩
                · rw [h1q, FS.lookup_set, if_neg (fun hcon => hq1 hcon.symm)]
                  exact Or.inl rfl
                · exact Or.inr ⟨s, hs⟩
              · exact Or.inr ⟨s, hs⟩
            · have l1 := facts1.2
              have l2 := facts2.2
              rw [FS.length_set] at l1
              rw [FS.length_set, FS.length_unlink] at l2
              rw [FS.length_unlink]
              omega
      · rw [if_pos (by simp [hret])] at h
        simp at h
        rw [← h.2]
        constructor
        · intro q hq1 hq2
          rw [FS.lookup_unlink, if_neg (fun hcon => hq1 hcon.symm)]
          rcases facts1.1 q with h1q | ⟨s, hs⟩
          · rw [h1q, FS.lookup_set, if_neg (fun hcon => hq1 hcon.symm)]
            exact Or.inl rfl
          · exact Or.inr ⟨s, hs⟩
        · have l1 := facts1.2
          rw [FS.length_set] at l1
          rw [FS.length_unlink]
          omega

/-- Clone accounting of one completed Zsh run with fresh temporary paths:
the run clones exactly when the completions directory did not `exists()`,
and after the run the completions directory `exists()`. -/
theorem zsh_run_clone_facts {which : String → Bool} {options : Opts}
    {t1 t2 : FPath} {fs fs' : FS} {code : ExitCode} {tr : List Event}
    (h : Zsh.run which options t1 t2 fs = (Except.ok (code, fs'), tr))
    (h1 : FS.lookup fs t1 = none) (h2 : FS.lookup fs t2 = none)
    (hn1 : t1 ≠ options.dest_dir.join (FPath.rel ".zsh-completions"))
    (hn2 : t2 ≠ options.dest_dir.join (FPath.rel ".zsh-completions")) :
    (cloneCount tr = if FS.pexists fs
      (options.dest_dir.join (FPath.rel ".zsh-completions")) then 0 else 1) ∧
    FS.pexists fs'
      (options.dest_dir.join (FPath.rel ".zsh-completions")) = true := by
  simp only [Zsh.run, Prod.mk.injEq] at h
  by_cases hc : FS.pexists fs
      (options.dest_dir.join (FPath.rel ".zsh-completions")) = true
  · rw [if_pos hc, if_pos hc] at h
    obtain ⟨hcop, htr⟩ := h
    subst htr
    refine ⟨by simp [cloneCount, hc], ?_⟩
    have facts := zsh_copies_ok_facts hcop
    have hres : (FS.resolve fs (fs.length + 1)
        (options.dest_dir.join (FPath.rel ".zsh-completions"))).isSome = true := by
      simpa [FS.pexists, FS.fuel] using hc
    have hT : ∀ q, q ∈ [t1, t2] → FS.lookup fs q = none := by
      intro q hq
      simp only [List.mem_cons, List.mem_singleton] at hq
      rcases hq with rfl | rfl | hq
      · exact h1
      · exact h2
      · exact absurd hq (List.not_mem_nil q)
    have hF : ∀ q, q ∉ [t1, t2] → FS.lookup fs' q = FS.lookup fs q ∨
        ∃ e, FS.lookup fs' q = some e ∧ ∀ t, e ≠ Entry.symlink t := by
      intro q hq
      simp only [List.mem_cons, List.mem_singleton] at hq
      push_neg at hq
      rcases facts.1 q hq.1 hq.2.1 with heq | ⟨s, hs⟩
      · exact Or.inl heq
      · exact Or.inr ⟨Entry.file s, hs, by intro t; simp⟩
    have htrans := FS.resolve_transfer hT hF (fs.length + 1)
      (options.dest_dir.join (FPath.rel ".zsh-completions")) hres
    have hmono := FS.resolve_mono_isSome
      (m := fs.length + 1) (n := fs'.length + 1) (by have := facts.2; omega) htrans
    simpa [FS.pexists, FS.fuel] using hmono
  · rw [Bool.not_eq_true] at hc
    rw [if_neg (by simp [hc]), if_neg (by simp [hc])] at h
    obtain ⟨hcop, htr⟩ := h
    subst htr
    refine ⟨by simp [cloneCount, hc], ?_⟩
    have facts := zsh_copies_ok_facts hcop
    have hkey : FS.lookup (FS.cloneRepo fs ZSH_COMPLETIONS_URL
        (options.dest_dir.join (FPath.rel ".zsh-completions")))
        (options.dest_dir.join (FPath.rel ".zsh-completions")) =
        some Entry.dir := by
      simp [FS.cloneRepo, FS.lookup_set]
    have hres : (FS.resolve (FS.cloneRepo fs ZSH_COMPLETIONS_URL
        (options.dest_dir.join (FPath.rel ".zsh-completions")))
        ((FS.cloneRepo fs ZSH_COMPLETIONS_URL
          (options.dest_dir.join (FPath.rel ".zsh-completions"))).length + 1)
        (options.dest_dir.join (FPath.rel ".zsh-completions"))).isSome = true := by
      rw [FS.resolve_lookup_dir hkey]; simp
    have hT : ∀ q, q ∈ [t1, t2] →
        FS.lookup (FS.cloneRepo fs ZSH_COMPLETIONS_URL
          (options.dest_dir.join (FPath.rel ".zsh-completions"))) q = none := by
      intro q hq
      simp only [List.mem_cons, List.mem_singleton] at hq
      rcases hq with rfl | rfl | hq
      · rw [FS.cloneRepo, FS.lookup_set, if_neg (fun hcon => hn1 hcon.symm)]
        exact h1
      · rw [FS.cloneRepo, FS.lookup_set, if_neg (fun hcon => hn2 hcon.symm)]
        exact h2
      · exact absurd hq (List.not_mem_nil q)
    have hF : ∀ q, q ∉ [t1, t2] →
        FS.lookup fs' q = FS.lookup (FS.cloneRepo fs ZSH_COMPLETIONS_URL
          (options.dest_dir.join (FPath.rel ".zsh-completions"))) q ∨
        ∃ e, FS.lookup fs' q = some e ∧ ∀ t, e ≠ Entry.symlink t := by
      intro q hq
      simp only [List.mem_cons, List.mem_singleton] at hq
      push_neg at hq
      rcases facts.1 q hq.1 hq.2.1 with heq | ⟨s, hs⟩
      · exact Or.inl heq
      · exact Or.inr ⟨Entry.file s, hs, by intro t; simp⟩
    have htrans := FS.resolve_transfer hT hF _
      (options.dest_dir.join (FPath.rel ".zsh-completions")) hres
    have hmono := FS.resolve_mono_isSome
      (n := fs'.length + 1) (by have := facts.2; omega) htrans
    simpa [FS.pexists, FS.fuel] using hmono

/-- Sequences of completed Zsh runs (each with fresh temporary paths), with
the total number of clones performed. -/
inductive ZshReach (which : String → Bool) (options : Opts) (start : FS) :
    FS → Nat → Prop where
  | refl : ZshReach which options start start 0
  | step {f f' : FS} {n : Nat} {t1 t2 : FPath} {code : ExitCode}
      {tr : List Event} :
      ZshReach which options start f n →
      FS.lookup f t1 = none → FS.lookup f t2 = none →
      t1 ≠ options.dest_dir.join (FPath.rel ".zsh-completions") →
      t2 ≠ options.dest_dir.join (FPath.rel ".zsh-completions") →
      Zsh.run which options t1 t2 f = (Except.ok (code, f'), tr) →
      ZshReach which options start f' (n + cloneCount tr)

/-- C7: across any sequence of completed Zsh installer runs, the
zsh-completions repository is cloned only when the `.zsh-completions`
directory under the destination does not `exists()` (regardless of the
overwrite flag), a completed run always leaves it existing, and hence the
clone happens at most once across repeated runs. -/
theorem zsh_clone_at_most_once :
    (∀ (which : String → Bool) (options : Opts) (t1 t2 : FPath) (fs fs' : FS)
        (code : ExitCode) (tr : List Event),
      FS.lookup fs t1 = none → FS.lookup fs t2 = none →
      t1 ≠ options.dest_dir.join (FPath.rel ".zsh-completions") →
      t2 ≠ options.dest_dir.join (FPath.rel ".zsh-completions") →
      Zsh.run which options t1 t2 fs = (Except.ok (code, fs'), tr) →
      (cloneCount tr = if FS.pexists fs
          (options.dest_dir.join (FPath.rel ".zsh-completions")) then 0 else 1) ∧
        FS.pexists fs'
          (options.dest_dir.join (FPath.rel ".zsh-completions")) = true) ∧
    (∀ (which : String → Bool) (options : Opts) (start fs' : FS) (n : Nat),
      ZshReach which options start fs' n → n ≤ 1) := by
  constructor
  · intro which options t1 t2 fs fs' code tr h1 h2 hn1 hn2 h
    exact zsh_run_clone_facts h h1 h2 hn1 hn2
  · intro which options start fs' n h
    have aux : ∀ (g : FS) (m : Nat), ZshReach which options start g m →
        m ≤ 1 ∧ (FS.pexists g
          (options.dest_dir.join (FPath.rel ".zsh-completions")) = true ∨
          (g = start ∧ m = 0)) := by
      intro g m hreach
      induction hreach with
      | refl => exact ⟨by omega, Or.inr ⟨rfl, rfl⟩⟩
      | step hprev ht1 ht2 hn1 hn2 hrun ih =>
        have facts := zsh_run_clone_facts hrun ht1 ht2 hn1 hn2
        rcases ih.2 with hex | ⟨rfl, rfl⟩
        · rw [hex] at facts
          simp at facts
          rw [facts.1]
          exact ⟨by have := ih.1; omega, Or.inl facts.2⟩
        · refine ⟨?_, Or.inl facts.2⟩
          rw [Nat.zero_add, facts.1]
          split <;> omega
    exact (aux fs' n h).1

set_option maxRecDepth 8192 in
/-- Witness for C7: a concrete completed run from a state whose completions
directory exists performs zero clones and leaves it existing, and the empty
run sequence performs at most one clone. -/
theorem zsh_clone_at_most_once_witness :
    ((cloneCount [] = if FS.pexists zshSkipFS
        (sampleOptF.dest_dir.join (FPath.rel ".zsh-completions")) then 0 else 1) ∧
      FS.pexists (FS.unlink (FS.set zshSkipFS ⟨true, ["tmp", "z1"]⟩
          (Entry.file zshrcContent)) ⟨true, ["tmp", "z1"]⟩)
        (sampleOptF.dest_dir.join (FPath.rel ".zsh-completions")) = true) ∧
    (0 : Nat) ≤ 1 :=
  ⟨zsh_clone_at_most_once.1 sampleWhich sampleOptF ⟨true, ["tmp", "z1"]⟩
      ⟨true, ["tmp", "z2"]⟩ zshSkipFS _ ExitCode.SKIP []
      (by decide) (by decide) (by decide) (by decide) (by decide),
   zsh_clone_at_most_once.2 sampleWhich sampleOptF zshSkipFS zshSkipFS 0
      ZshReach.refl⟩

/-! ### Claim C8 -/

/-- C8: the Vim installer issues the plug.vim HTTP GET exactly when the
local copy under `.vim/autoload` is absent (after the directory phase) or
the overwrite flag is set; and when the download happens with a response
status other than 200, the run terminates with a fatal assertion error
instead of returning an outcome. -/
theorem vim_download_iff (which : String → Bool) (options : Opts)
    (response : Nat × String) (tmp : FPath) (fs fs0 : FS)
    (hmk : Vim.mkdirPhase options fs = Except.ok fs0) :
    (Event.httpGet PLUG_VIM_URL ∈ (Vim.run which options response tmp fs).2 ↔
      (FS.pexists fs0 (((options.dest_dir.join (FPath.rel ".vim")).join
          (FPath.rel "autoload")).join (FPath.rel "plug.vim")) = false ∨
        options.overwrite = true)) ∧
    ((FS.pexists fs0 (((options.dest_dir.join (FPath.rel ".vim")).join
          (FPath.rel "autoload")).join (FPath.rel "plug.vim")) = false ∨
        options.overwrite = true) →
      response.1 ≠ 200 →
      (Vim.run which options response tmp fs).1 =
        Except.error Err.assertionError) := by
  by_cases hcond : ((!FS.pexists fs0 (((options.dest_dir.join (FPath.rel ".vim")).join
      (FPath.rel "autoload")).join (FPath.rel "plug.vim"))) ||
      options.overwrite) = true
  · have hrhs : FS.pexists fs0 (((options.dest_dir.join (FPath.rel ".vim")).join
        (FPath.rel "autoload")).join (FPath.rel "plug.vim")) = false ∨
        options.overwrite = true := by
      simpa [Bool.or_eq_true, Bool.not_eq_true'] using hcond
    by_cases hresp : response.1 ≠ 200
    · constructor
      · simp [Vim.run, hmk, hcond, hresp, hrhs]
      · intro _ _
        simp [Vim.run, hmk, hcond, hresp]
    · constructor
      · cases hwf : FS.writeFile fs0 (((options.dest_dir.join (FPath.rel ".vim")).join
            (FPath.rel "autoload")).join (FPath.rel "plug.vim")) response.2 with
        | error e => simp [Vim.run, hmk, hcond, hresp, hwf, hrhs]
        | ok fs2 => simp [Vim.run, hmk, hcond, hresp, hwf, hrhs]
      · intro _ habs
        exact absurd habs hresp
  · have hrhs : ¬ (FS.pexists fs0 (((options.dest_dir.join (FPath.rel ".vim")).join
        (FPath.rel "autoload")).join (FPath.rel "plug.vim")) = false ∨
        options.overwrite = true) := by
      simp only [Bool.or_eq_true, Bool.not_eq_true'] at hcond
      push_neg at hcond
      rcases hcond with ⟨h1, h2⟩
      rintro (hc | hc)
      · exact h1 hc
      · exact h2 hc
    constructor
    · simp only [Vim.run, hmk]
      rw [if_neg (by simpa using hcond)]
      simpa using hrhs
    · intro hc
      exact absurd hc hrhs

/-- Witness for C8: on an empty filesystem (no autoload directory, no local
plug.vim) with a 404 response, the GET is recorded and the run aborts with
the assertion error. -/
theorem vim_download_iff_witness :
    (Event.httpGet PLUG_VIM_URL ∈
        (Vim.run sampleWhich sampleOptF (404, "no") ⟨true, ["tmp", "v0"]⟩ []).2 ↔
      (FS.pexists (FS.mkdir_p [] ((sampleOptF.dest_dir.join (FPath.rel ".vim")).join
          (FPath.rel "autoload")) |>.toOption |>.getD [])
        (((sampleOptF.dest_dir.join (FPath.rel ".vim")).join
          (FPath.rel "autoload")).join (FPath.rel "plug.vim")) = false ∨
        sampleOptF.overwrite = true)) ∧
    ((FS.pexists (FS.mkdir_p [] ((sampleOptF.dest_dir.join (FPath.rel ".vim")).join
          (FPath.rel "autoload")) |>.toOption |>.getD [])
        (((sampleOptF.dest_dir.join (FPath.rel ".vim")).join
          (FPath.rel "autoload")).join (FPath.rel "plug.vim")) = false ∨
        sampleOptF.overwrite = true) →
      (404, "no").1 ≠ 200 →
      (Vim.run sampleWhich sampleOptF (404, "no") ⟨true, ["tmp", "v0"]⟩ []).1 =
        Except.error Err.assertionError) :=
  vim_download_iff sampleWhich sampleOptF (404, "no") ⟨true, ["tmp", "v0"]⟩ []
    _ (by decide)
